import Mathlib

/-! Capability registry of the CSI driver (`internal/csi-common/driver.go`).

A shallow embedding of `CSIDriver` and its methods, followed by theorems about
registration and validation of capabilities.

Conventions of the embedding:

* a Go pointer `*T` is `Option T` (`none` is the nil pointer); the oneof field of a
  capability is `Option` of its wrapper, and the section on interface values adds the
  typed-nil wrapper and the panic of the getter on it;
* a Go slice `[]T` is `List T` (the nil slice and the empty slice are both `[]`,
  they are indistinguishable by `len` and `range`);
* the Go `error` interface is `Option status.Status` (`none` is the nil error);
* the protobuf enums are `int32` in Go; they are embedded as wrappers of `Int`,
  so every statement proved for all values holds for every `int32` value;
* writing to the process log is made explicit: a function that logs returns
  the list of entries it wrote next to its result.
-/

set_option autoImplicit false

/-! ## The parts of the protocol library (`csi`) that the driver uses -/

namespace csi

/-- Go type `csi.ControllerServiceCapability_RPC_Type` (an `int32` enum). -/
structure ControllerServiceCapability_RPC_Type where
  val : Int
deriving DecidableEq, Repr

/-- Go type `csi.GroupControllerServiceCapability_RPC_Type` (an `int32` enum). -/
structure GroupControllerServiceCapability_RPC_Type where
  val : Int
deriving DecidableEq, Repr

/-- Go type `csi.VolumeCapability_AccessMode_Mode` (an `int32` enum). -/
structure VolumeCapability_AccessMode_Mode where
  val : Int
deriving DecidableEq, Repr

def ControllerServiceCapability_RPC_UNKNOWN : ControllerServiceCapability_RPC_Type := ⟨0⟩
def ControllerServiceCapability_RPC_CREATE_DELETE_VOLUME : ControllerServiceCapability_RPC_Type := ⟨1⟩
def ControllerServiceCapability_RPC_PUBLISH_UNPUBLISH_VOLUME : ControllerServiceCapability_RPC_Type := ⟨2⟩
def ControllerServiceCapability_RPC_LIST_VOLUMES : ControllerServiceCapability_RPC_Type := ⟨3⟩
def ControllerServiceCapability_RPC_GET_CAPACITY : ControllerServiceCapability_RPC_Type := ⟨4⟩
def ControllerServiceCapability_RPC_CREATE_DELETE_SNAPSHOT : ControllerServiceCapability_RPC_Type := ⟨5⟩
def ControllerServiceCapability_RPC_LIST_SNAPSHOTS : ControllerServiceCapability_RPC_Type := ⟨6⟩
def ControllerServiceCapability_RPC_CLONE_VOLUME : ControllerServiceCapability_RPC_Type := ⟨7⟩
def ControllerServiceCapability_RPC_PUBLISH_READONLY : ControllerServiceCapability_RPC_Type := ⟨8⟩
def ControllerServiceCapability_RPC_EXPAND_VOLUME : ControllerServiceCapability_RPC_Type := ⟨9⟩
def ControllerServiceCapability_RPC_LIST_VOLUMES_PUBLISHED_NODES :
    ControllerServiceCapability_RPC_Type := ⟨10⟩
def ControllerServiceCapability_RPC_VOLUME_CONDITION : ControllerServiceCapability_RPC_Type := ⟨11⟩
def ControllerServiceCapability_RPC_GET_VOLUME : ControllerServiceCapability_RPC_Type := ⟨12⟩
def ControllerServiceCapability_RPC_SINGLE_NODE_MULTI_WRITER :
    ControllerServiceCapability_RPC_Type := ⟨13⟩

def GroupControllerServiceCapability_RPC_UNKNOWN : GroupControllerServiceCapability_RPC_Type := ⟨0⟩
def GroupControllerServiceCapability_RPC_CREATE_DELETE_GET_VOLUME_GROUP_SNAPSHOT :
    GroupControllerServiceCapability_RPC_Type := ⟨1⟩

def VolumeCapability_AccessMode_UNKNOWN : VolumeCapability_AccessMode_Mode := ⟨0⟩
def VolumeCapability_AccessMode_SINGLE_NODE_WRITER : VolumeCapability_AccessMode_Mode := ⟨1⟩
def VolumeCapability_AccessMode_SINGLE_NODE_READER_ONLY : VolumeCapability_AccessMode_Mode := ⟨2⟩
def VolumeCapability_AccessMode_MULTI_NODE_READER_ONLY : VolumeCapability_AccessMode_Mode := ⟨3⟩
def VolumeCapability_AccessMode_MULTI_NODE_SINGLE_WRITER : VolumeCapability_AccessMode_Mode := ⟨4⟩
def VolumeCapability_AccessMode_MULTI_NODE_MULTI_WRITER : VolumeCapability_AccessMode_Mode := ⟨5⟩
def VolumeCapability_AccessMode_SINGLE_NODE_SINGLE_WRITER : VolumeCapability_AccessMode_Mode := ⟨6⟩
def VolumeCapability_AccessMode_SINGLE_NODE_MULTI_WRITER : VolumeCapability_AccessMode_Mode := ⟨7⟩

/-- The table `number ↦ name` of a protobuf enum (Go: `map[int32]string`). The driver
does not define these tables, so the functions that print a kind take the table as an
argument. -/
abbrev EnumNames := Int → Option String

/-- Table of `ControllerServiceCapability_RPC_Type` for the kinds declared above
(later versions of the protocol library declare further kinds above 13). -/
def ControllerServiceCapability_RPC_Type_name : EnumNames := fun n =>
  if n = 0 then some "UNKNOWN"
  else if n = 1 then some "CREATE_DELETE_VOLUME"
  else if n = 2 then some "PUBLISH_UNPUBLISH_VOLUME"
  else if n = 3 then some "LIST_VOLUMES"
  else if n = 4 then some "GET_CAPACITY"
  else if n = 5 then some "CREATE_DELETE_SNAPSHOT"
  else if n = 6 then some "LIST_SNAPSHOTS"
  else if n = 7 then some "CLONE_VOLUME"
  else if n = 8 then some "PUBLISH_READONLY"
  else if n = 9 then some "EXPAND_VOLUME"
  else if n = 10 then some "LIST_VOLUMES_PUBLISHED_NODES"
  else if n = 11 then some "VOLUME_CONDITION"
  else if n = 12 then some "GET_VOLUME"
  else if n = 13 then some "SINGLE_NODE_MULTI_WRITER"
  else none

/-- Table of `GroupControllerServiceCapability_RPC_Type`. -/
def GroupControllerServiceCapability_RPC_Type_name : EnumNames := fun n =>
  if n = 0 then some "UNKNOWN"
  else if n = 1 then some "CREATE_DELETE_GET_VOLUME_GROUP_SNAPSHOT"
  else none

/-- Table of `VolumeCapability_AccessMode_Mode`. -/
def VolumeCapability_AccessMode_Mode_name : EnumNames := fun n =>
  if n = 0 then some "UNKNOWN"
  else if n = 1 then some "SINGLE_NODE_WRITER"
  else if n = 2 then some "SINGLE_NODE_READER_ONLY"
  else if n = 3 then some "MULTI_NODE_READER_ONLY"
  else if n = 4 then some "MULTI_NODE_SINGLE_WRITER"
  else if n = 5 then some "MULTI_NODE_MULTI_WRITER"
  else if n = 6 then some "SINGLE_NODE_SINGLE_WRITER"
  else if n = 7 then some "SINGLE_NODE_MULTI_WRITER"
  else none

/-- Printing of a protobuf enum value: its name when the table has one, else the
number in decimal. -/
def enumString (names : EnumNames) (n : Int) : String :=
  match names n with
  | some s => s
  | none => toString n

/-- Go method `ControllerServiceCapability_RPC_Type.String`. -/
def ControllerServiceCapability_RPC_Type.String (names : EnumNames)
    (c : ControllerServiceCapability_RPC_Type) : String :=
  enumString names c.val

/-- Go method `GroupControllerServiceCapability_RPC_Type.String`. -/
def GroupControllerServiceCapability_RPC_Type.String (names : EnumNames)
    (c : GroupControllerServiceCapability_RPC_Type) : String :=
  enumString names c.val

/-- Go method `VolumeCapability_AccessMode_Mode.String`. -/
def VolumeCapability_AccessMode_Mode.String (names : EnumNames)
    (c : VolumeCapability_AccessMode_Mode) : String :=
  enumString names c.val

/-- Go message `csi.ControllerServiceCapability_RPC`. -/
structure ControllerServiceCapability_RPC where
  Type_ : ControllerServiceCapability_RPC_Type
deriving DecidableEq, Repr

/-- Go wrapper `csi.ControllerServiceCapability_Rpc`, the only alternative of the
`Type` field of a `ControllerServiceCapability`. -/
structure ControllerServiceCapability_Rpc where
  Rpc : Option ControllerServiceCapability_RPC
deriving DecidableEq, Repr

/-- Go message `csi.ControllerServiceCapability`; `Type_` is `none` when the
`Type` field is not set. A `Type` holding a nil pointer of the wrapper type is not a
value here; `csicommon.oneof.ControllerServiceCapability` has it. -/
structure ControllerServiceCapability where
  Type_ : Option ControllerServiceCapability_Rpc
deriving DecidableEq, Repr

/-- Go getter `(*ControllerServiceCapability).GetRpc`, safe on a nil receiver. -/
def ControllerServiceCapability.GetRpc :
    Option ControllerServiceCapability → Option ControllerServiceCapability_RPC
  | none => none
  | some m =>
    match m.Type_ with
    | some x => x.Rpc
    | none => none

/-- Go getter `(*ControllerServiceCapability_RPC).GetType`, safe on a nil receiver. -/
def ControllerServiceCapability_RPC.GetType :
    Option ControllerServiceCapability_RPC → ControllerServiceCapability_RPC_Type
  | some m => m.Type_
  | none => ControllerServiceCapability_RPC_UNKNOWN

/-- Go message `csi.GroupControllerServiceCapability_RPC`. -/
structure GroupControllerServiceCapability_RPC where
  Type_ : GroupControllerServiceCapability_RPC_Type
deriving DecidableEq, Repr

/-- Go wrapper `csi.GroupControllerServiceCapability_Rpc`. -/
structure GroupControllerServiceCapability_Rpc where
  Rpc : Option GroupControllerServiceCapability_RPC
deriving DecidableEq, Repr

/-- Go message `csi.GroupControllerServiceCapability`; as for the controller message, a
`Type` holding a nil pointer of the wrapper type is not a value here;
`csicommon.oneof.GroupControllerServiceCapability` has it. -/
structure GroupControllerServiceCapability where
  Type_ : Option GroupControllerServiceCapability_Rpc
deriving DecidableEq, Repr

/-- Go getter `(*GroupControllerServiceCapability).GetRpc`, safe on a nil receiver. -/
def GroupControllerServiceCapability.GetRpc :
    Option GroupControllerServiceCapability → Option GroupControllerServiceCapability_RPC
  | none => none
  | some m =>
    match m.Type_ with
    | some x => x.Rpc
    | none => none

/-- Go getter `(*GroupControllerServiceCapability_RPC).GetType`, safe on a nil receiver. -/
def GroupControllerServiceCapability_RPC.GetType :
    Option GroupControllerServiceCapability_RPC → GroupControllerServiceCapability_RPC_Type
  | some m => m.Type_
  | none => GroupControllerServiceCapability_RPC_UNKNOWN

/-- Go message `csi.VolumeCapability_AccessMode`. -/
structure VolumeCapability_AccessMode where
  Mode : VolumeCapability_AccessMode_Mode
deriving DecidableEq, Repr

/-- Go getter `(*VolumeCapability_AccessMode).GetMode`, safe on a nil receiver. -/
def VolumeCapability_AccessMode.GetMode :
    Option VolumeCapability_AccessMode → VolumeCapability_AccessMode_Mode
  | some m => m.Mode
  | none => VolumeCapability_AccessMode_UNKNOWN

end csi

/-! ## gRPC status codes and errors -/

namespace codes

/-- Go type `codes.Code`. -/
inductive Code where
  | OK | Canceled | Unknown | InvalidArgument | DeadlineExceeded | NotFound
  | AlreadyExists | PermissionDenied | ResourceExhausted | FailedPrecondition
  | Aborted | OutOfRange | Unimplemented | Internal | Unavailable | DataLoss
  | Unauthenticated
deriving DecidableEq, Repr

end codes

namespace status

/-- A gRPC status: a code and a message. -/
structure Status where
  code : codes.Code
  message : String
deriving DecidableEq, Repr

/-- Go `status.Error(c, msg)`: the error of the status with code `c` and message
`msg`; the nil error when `c` is `OK`. -/
def Error (c : codes.Code) (msg : String) : Option Status :=
  if c = codes.Code.OK then none else some { code := c, message := msg }

end status

/-! ## The process log -/

namespace klog

/-- Severity of a log entry. -/
inductive Severity where
  | Info | Error
deriving DecidableEq, Repr

/-- One entry written to the process log. -/
structure Entry where
  severity : Severity
  message : String
deriving DecidableEq, Repr

/-- Go `klog.Errorf(format)` with a format that has no verbs: the entry written. -/
def Errorf (format : String) : Entry :=
  { severity := Severity.Error, message := format }

end klog

/-! ## The driver -/

namespace csicommon

open csi

/-- Modelled from the spec: `log.DefaultLog` of `internal/util/log`, which is not part of
the sources at hand. The spec says of registration that each declared kind is recorded
for observability, on an external channel and not on registry state: the call writes
one entry of severity `Info` holding the formatted message. -/
def DefaultLog (message : String) : klog.Entry :=
  { severity := klog.Severity.Info, message := message }

/-- Modelled from the spec: `NewControllerServiceCapability` of the package's helpers,
which is not part of the sources at hand. The spec says the registered collection
contains exactly the declared kinds, matched against the declared type of the kind: the
helper returns a fresh capability whose RPC type is the given kind. -/
def NewControllerServiceCapability (c : ControllerServiceCapability_RPC_Type) :
    Option ControllerServiceCapability :=
  some { Type_ := some { Rpc := some { Type_ := c } } }

/-- Modelled from the spec: `NewGroupControllerServiceCapability` of the package's
helpers, which is not part of the sources at hand; the group-controller counterpart of
`NewControllerServiceCapability`. -/
def NewGroupControllerServiceCapability (c : GroupControllerServiceCapability_RPC_Type) :
    Option GroupControllerServiceCapability :=
  some { Type_ := some { Rpc := some { Type_ := c } } }

/-- Modelled from the spec: `NewVolumeCapabilityAccessMode` of the package's helpers,
which is not part of the sources at hand: a fresh access mode holding the given mode. -/
def NewVolumeCapabilityAccessMode (mode : VolumeCapability_AccessMode_Mode) :
    Option VolumeCapability_AccessMode :=
  some { Mode := mode }

/-- Go struct `CSIDriver`: driver information. The map `topology` is a list of
key-value pairs. -/
structure CSIDriver where
  name : String
  nodeID : String
  version : String
  instance_ : String
  topology : List (String × String)
  capabilities : List (Option ControllerServiceCapability)
  groupCapabilities : List (Option GroupControllerServiceCapability)
  vc : List (Option VolumeCapability_AccessMode)
deriving DecidableEq, Repr

/-- Go `NewCSIDriver(name, v, nodeID, instance)`: the driver (`none` for nil) and the
entries written to the log. -/
def NewCSIDriver (name v nodeID instance_ : String) : Option CSIDriver × List klog.Entry :=
  if name = "" then
    (none, [klog.Errorf "Driver name missing"])
  else if nodeID = "" then
    (none, [klog.Errorf "NodeID missing"])
  else if v = "" then
    (none, [klog.Errorf "Version argument missing"])
  else if instance_ = "" then
    (none, [klog.Errorf "Instance argument missing"])
  else
    (some { name := name, version := v, nodeID := nodeID, instance_ := instance_,
            topology := [], capabilities := [], groupCapabilities := [], vc := [] }, [])

/-- Go `(d *CSIDriver) GetInstanceID()`. -/
def CSIDriver.GetInstanceID (d : CSIDriver) : String :=
  d.instance_

/-- The loop of `ValidateControllerServiceRequest`: `true` when the scan of the
collection returns at an entry whose kind is `c`, `false` when it runs to the end. -/
def ValidateControllerServiceRequest.range (c : ControllerServiceCapability_RPC_Type) :
    List (Option ControllerServiceCapability) → Bool
  | [] => false
  | capability :: rest =>
    if c = ControllerServiceCapability_RPC.GetType (ControllerServiceCapability.GetRpc capability)
    then true
    else ValidateControllerServiceRequest.range c rest

/-- Go `(d *CSIDriver) ValidateControllerServiceRequest(c)`; `names` is the table used
by `c.String()`. -/
def CSIDriver.ValidateControllerServiceRequest (names : EnumNames) (d : CSIDriver)
    (c : ControllerServiceCapability_RPC_Type) : Option status.Status :=
  if c = ControllerServiceCapability_RPC_UNKNOWN then
    none
  else if ValidateControllerServiceRequest.range c d.capabilities then
    none
  else
    status.Error codes.Code.InvalidArgument (c.String names)

/-- Go `(d *CSIDriver) AddControllerServiceCapabilities(cl)`: the driver afterwards and
the entries written to the log. The accumulator of the fold is the slice `csc` and the
log written so far. -/
def CSIDriver.AddControllerServiceCapabilities (names : EnumNames) (d : CSIDriver)
    (cl : List ControllerServiceCapability_RPC_Type) : CSIDriver × List klog.Entry :=
  let r := cl.foldl
    (fun (acc : List (Option ControllerServiceCapability) × List klog.Entry) c =>
      (acc.1 ++ [NewControllerServiceCapability c],
       acc.2 ++ [DefaultLog ("Enabling controller service capability: " ++ c.String names)]))
    ([], [])
  ({ d with capabilities := r.1 }, r.2)

/-- Go `(d *CSIDriver) AddVolumeCapabilityAccessModes(vc)`: the returned slice, the
driver afterwards and the entries written to the log. -/
def CSIDriver.AddVolumeCapabilityAccessModes (names : EnumNames) (d : CSIDriver)
    (vc : List VolumeCapability_AccessMode_Mode) :
    List (Option VolumeCapability_AccessMode) × CSIDriver × List klog.Entry :=
  let r := vc.foldl
    (fun (acc : List (Option VolumeCapability_AccessMode) × List klog.Entry) c =>
      (acc.1 ++ [NewVolumeCapabilityAccessMode c],
       acc.2 ++ [DefaultLog ("Enabling volume access mode: " ++ c.String names)]))
    ([], [])
  (r.1, { d with vc := r.1 }, r.2)

/-- Go `(d *CSIDriver) GetVolumeCapabilityAccessModes()`. -/
def CSIDriver.GetVolumeCapabilityAccessModes (d : CSIDriver) :
    List (Option VolumeCapability_AccessMode) :=
  d.vc

/-- Go `(d *CSIDriver) AddGroupControllerServiceCapabilities(cl)`: the driver afterwards
and the entries written to the log. -/
def CSIDriver.AddGroupControllerServiceCapabilities (names : EnumNames) (d : CSIDriver)
    (cl : List GroupControllerServiceCapability_RPC_Type) : CSIDriver × List klog.Entry :=
  let r := cl.foldl
    (fun (acc : List (Option GroupControllerServiceCapability) × List klog.Entry) c =>
      (acc.1 ++ [NewGroupControllerServiceCapability c],
       acc.2 ++
         [DefaultLog ("Enabling group controller service capability: " ++ c.String names)]))
    ([], [])
  ({ d with groupCapabilities := r.1 }, r.2)

/-- The loop of `ValidateGroupControllerServiceRequest`. -/
def ValidateGroupControllerServiceRequest.range (c : GroupControllerServiceCapability_RPC_Type) :
    List (Option GroupControllerServiceCapability) → Bool
  | [] => false
  | capability :: rest =>
    if c = GroupControllerServiceCapability_RPC.GetType
        (GroupControllerServiceCapability.GetRpc capability)
    then true
    else ValidateGroupControllerServiceRequest.range c rest

/-- Go `(d *CSIDriver) ValidateGroupControllerServiceRequest(c)`; `names` is the table
used by `c.String()`. -/
def CSIDriver.ValidateGroupControllerServiceRequest (names : EnumNames) (d : CSIDriver)
    (c : GroupControllerServiceCapability_RPC_Type) : Option status.Status :=
  if c = GroupControllerServiceCapability_RPC_UNKNOWN then
    none
  else if ValidateGroupControllerServiceRequest.range c d.groupCapabilities then
    none
  else
    status.Error codes.Code.InvalidArgument (c.String names)

/-! ## Calls on a driver -/

/-- One call of a method of `CSIDriver` with its arguments. -/
inductive Call where
  | GetInstanceID
  | ValidateControllerServiceRequest (c : ControllerServiceCapability_RPC_Type)
  | AddControllerServiceCapabilities (cl : List ControllerServiceCapability_RPC_Type)
  | AddVolumeCapabilityAccessModes (vc : List VolumeCapability_AccessMode_Mode)
  | GetVolumeCapabilityAccessModes
  | AddGroupControllerServiceCapabilities (cl : List GroupControllerServiceCapability_RPC_Type)
  | ValidateGroupControllerServiceRequest (c : GroupControllerServiceCapability_RPC_Type)
deriving DecidableEq, Repr

/-- What a call returns to its caller. -/
inductive Returned where
  | nothing
  | string (s : String)
  | error (e : Option status.Status)
  | accessModes (l : List (Option VolumeCapability_AccessMode))
deriving DecidableEq, Repr

/-- One call on the driver `d`: the driver afterwards, what the call returns and the
entries it writes to the log. `GetInstanceID`, `GetVolumeCapabilityAccessModes` and the
two validations assign no field of the receiver and do not log, so the driver afterwards
is `d` and the log is empty. -/
def CSIDriver.call (names : EnumNames) (d : CSIDriver) :
    Call → CSIDriver × Returned × List klog.Entry
  | Call.GetInstanceID => (d, Returned.string d.GetInstanceID, [])
  | Call.ValidateControllerServiceRequest c =>
    (d, Returned.error (d.ValidateControllerServiceRequest names c), [])
  | Call.AddControllerServiceCapabilities cl =>
    ((d.AddControllerServiceCapabilities names cl).1, Returned.nothing,
     (d.AddControllerServiceCapabilities names cl).2)
  | Call.AddVolumeCapabilityAccessModes vc =>
    ((d.AddVolumeCapabilityAccessModes names vc).2.1,
     Returned.accessModes (d.AddVolumeCapabilityAccessModes names vc).1,
     (d.AddVolumeCapabilityAccessModes names vc).2.2)
  | Call.GetVolumeCapabilityAccessModes =>
    (d, Returned.accessModes d.GetVolumeCapabilityAccessModes, [])
  | Call.AddGroupControllerServiceCapabilities cl =>
    ((d.AddGroupControllerServiceCapabilities names cl).1, Returned.nothing,
     (d.AddGroupControllerServiceCapabilities names cl).2)
  | Call.ValidateGroupControllerServiceRequest c =>
    (d, Returned.error (d.ValidateGroupControllerServiceRequest names c), [])

/-- The driver after a finite sequence of calls, made one after the other. -/
def CSIDriver.calls (names : EnumNames) (d : CSIDriver) : List Call → CSIDriver
  | [] => d
  | c :: rest => CSIDriver.calls names (d.call names c).1 rest

/-! ## Stored entries with the oneof field as a Go interface value

In `csi.ControllerServiceCapability` above the field `Type` is either not set or holds a
wrapper. A Go interface value has one more inhabitant: a nil pointer of the wrapper type
(a typed nil), on which the generated getter `GetRpc` dereferences nil. The definitions
of this section carry that inhabitant and make the panic explicit; the driver above is
the part of this one whose collections hold no typed nil (`ofCSIDriver`). -/

namespace oneof

/-- What running a piece of Go code gives: a nil-pointer dereference panic, or the value
it returns. -/
inductive Outcome (α : Type) where
  | panic
  | returns (a : α)
deriving DecidableEq, Repr

/-- Go interface `isControllerServiceCapability_Type`, the type of the oneof field `Type`:
the nil interface, or a pointer `*ControllerServiceCapability_Rpc`, which may itself be
nil (`Rpc none`, a typed nil). -/
inductive isControllerServiceCapability_Type where
  | nil
  | Rpc (x : Option csi.ControllerServiceCapability_Rpc)
deriving DecidableEq, Repr

/-- Go message `csi.ControllerServiceCapability` with `Type` as an interface value. -/
structure ControllerServiceCapability where
  Type_ : isControllerServiceCapability_Type
deriving DecidableEq, Repr

/-- Go getter `(*ControllerServiceCapability).GetRpc`: nil on a nil receiver and on a
`Type` that is the nil interface; on a wrapper pointer it reads the field `Rpc` of the
pointer, which panics when the pointer is nil. -/
def ControllerServiceCapability.GetRpc :
    Option oneof.ControllerServiceCapability → Outcome (Option csi.ControllerServiceCapability_RPC)
  | none => Outcome.returns none
  | some m =>
    match m.Type_ with
    | isControllerServiceCapability_Type.nil => Outcome.returns none
    | isControllerServiceCapability_Type.Rpc none => Outcome.panic
    | isControllerServiceCapability_Type.Rpc (some x) => Outcome.returns x.Rpc

/-- Go interface `isGroupControllerServiceCapability_Type`. -/
inductive isGroupControllerServiceCapability_Type where
  | nil
  | Rpc (x : Option csi.GroupControllerServiceCapability_Rpc)
deriving DecidableEq, Repr

/-- Go message `csi.GroupControllerServiceCapability` with `Type` as an interface value. -/
structure GroupControllerServiceCapability where
  Type_ : isGroupControllerServiceCapability_Type
deriving DecidableEq, Repr

/-- Go getter `(*GroupControllerServiceCapability).GetRpc`. -/
def GroupControllerServiceCapability.GetRpc :
    Option oneof.GroupControllerServiceCapability →
      Outcome (Option csi.GroupControllerServiceCapability_RPC)
  | none => Outcome.returns none
  | some m =>
    match m.Type_ with
    | isGroupControllerServiceCapability_Type.nil => Outcome.returns none
    | isGroupControllerServiceCapability_Type.Rpc none => Outcome.panic
    | isGroupControllerServiceCapability_Type.Rpc (some x) => Outcome.returns x.Rpc

/-- Go struct `CSIDriver`, its two capability collections holding messages of this
section. -/
structure CSIDriver where
  name : String
  nodeID : String
  version : String
  instance_ : String
  topology : List (String × String)
  capabilities : List (Option oneof.ControllerServiceCapability)
  groupCapabilities : List (Option oneof.GroupControllerServiceCapability)
  vc : List (Option csi.VolumeCapability_AccessMode)
deriving DecidableEq, Repr

/-- The loop of `ValidateControllerServiceRequest`: it panics when `GetRpc` panics at an
entry reached before one whose kind is `c`. -/
def ValidateControllerServiceRequest.range (c : csi.ControllerServiceCapability_RPC_Type) :
    List (Option oneof.ControllerServiceCapability) → Outcome Bool
  | [] => Outcome.returns false
  | capability :: rest =>
    match oneof.ControllerServiceCapability.GetRpc capability with
    | Outcome.panic => Outcome.panic
    | Outcome.returns r =>
      if c = csi.ControllerServiceCapability_RPC.GetType r
      then Outcome.returns true
      else ValidateControllerServiceRequest.range c rest

/-- Go `(d *CSIDriver) ValidateControllerServiceRequest(c)`. -/
def CSIDriver.ValidateControllerServiceRequest (names : csi.EnumNames) (d : oneof.CSIDriver)
    (c : csi.ControllerServiceCapability_RPC_Type) : Outcome (Option status.Status) :=
  if c = csi.ControllerServiceCapability_RPC_UNKNOWN then
    Outcome.returns none
  else
    match oneof.ValidateControllerServiceRequest.range c d.capabilities with
    | Outcome.panic => Outcome.panic
    | Outcome.returns true => Outcome.returns none
    | Outcome.returns false =>
      Outcome.returns (status.Error codes.Code.InvalidArgument (c.String names))

/-- The loop of `ValidateGroupControllerServiceRequest`. -/
def ValidateGroupControllerServiceRequest.range
    (c : csi.GroupControllerServiceCapability_RPC_Type) :
    List (Option oneof.GroupControllerServiceCapability) → Outcome Bool
  | [] => Outcome.returns false
  | capability :: rest =>
    match oneof.GroupControllerServiceCapability.GetRpc capability with
    | Outcome.panic => Outcome.panic
    | Outcome.returns r =>
      if c = csi.GroupControllerServiceCapability_RPC.GetType r
      then Outcome.returns true
      else ValidateGroupControllerServiceRequest.range c rest

/-- Go `(d *CSIDriver) ValidateGroupControllerServiceRequest(c)`. -/
def CSIDriver.ValidateGroupControllerServiceRequest (names : csi.EnumNames)
    (d : oneof.CSIDriver) (c : csi.GroupControllerServiceCapability_RPC_Type) :
    Outcome (Option status.Status) :=
  if c = csi.GroupControllerServiceCapability_RPC_UNKNOWN then
    Outcome.returns none
  else
    match oneof.ValidateGroupControllerServiceRequest.range c d.groupCapabilities with
    | Outcome.panic => Outcome.panic
    | Outcome.returns true => Outcome.returns none
    | Outcome.returns false =>
      Outcome.returns (status.Error codes.Code.InvalidArgument (c.String names))

/-- A controller message without typed nil, as a message of this section. -/
def ofControllerServiceCapability (m : csi.ControllerServiceCapability) :
    oneof.ControllerServiceCapability :=
  match m.Type_ with
  | none => { Type_ := isControllerServiceCapability_Type.nil }
  | some x => { Type_ := isControllerServiceCapability_Type.Rpc (some x) }

/-- A group-controller message without typed nil, as a message of this section. -/
def ofGroupControllerServiceCapability (m : csi.GroupControllerServiceCapability) :
    oneof.GroupControllerServiceCapability :=
  match m.Type_ with
  | none => { Type_ := isGroupControllerServiceCapability_Type.nil }
  | some x => { Type_ := isGroupControllerServiceCapability_Type.Rpc (some x) }

/-- A driver whose collections hold no typed nil, as a driver of this section. -/
def ofCSIDriver (d : csicommon.CSIDriver) : oneof.CSIDriver :=
  { name := d.name, nodeID := d.nodeID, version := d.version, instance_ := d.instance_,
    topology := d.topology,
    capabilities := d.capabilities.map (Option.map ofControllerServiceCapability),
    groupCapabilities := d.groupCapabilities.map (Option.map ofGroupControllerServiceCapability),
    vc := d.vc }

end oneof

/-! ## Lemmas on the loops -/

theorem AddControllerServiceCapabilities_fold (names : EnumNames)
    (cl : List ControllerServiceCapability_RPC_Type)
    (a : List (Option ControllerServiceCapability)) (b : List klog.Entry) :
    cl.foldl
      (fun (acc : List (Option ControllerServiceCapability) × List klog.Entry) c =>
        (acc.1 ++ [NewControllerServiceCapability c],
         acc.2 ++ [DefaultLog ("Enabling controller service capability: " ++ c.String names)]))
      (a, b)
    = (a ++ cl.map NewControllerServiceCapability,
       b ++ cl.map (fun c =>
         DefaultLog ("Enabling controller service capability: " ++ c.String names))) := by
  induction cl generalizing a b with
  | nil => simp
  | cons c rest ih => simp [List.foldl_cons, ih]

theorem AddGroupControllerServiceCapabilities_fold (names : EnumNames)
    (cl : List GroupControllerServiceCapability_RPC_Type)
    (a : List (Option GroupControllerServiceCapability)) (b : List klog.Entry) :
    cl.foldl
      (fun (acc : List (Option GroupControllerServiceCapability) × List klog.Entry) c =>
        (acc.1 ++ [NewGroupControllerServiceCapability c],
         acc.2 ++
           [DefaultLog ("Enabling group controller service capability: " ++ c.String names)]))
      (a, b)
    = (a ++ cl.map NewGroupControllerServiceCapability,
       b ++ cl.map (fun c =>
         DefaultLog ("Enabling group controller service capability: " ++ c.String names))) := by
  induction cl generalizing a b with
  | nil => simp
  | cons c rest ih => simp [List.foldl_cons, ih]

theorem AddVolumeCapabilityAccessModes_fold (names : EnumNames)
    (vc : List VolumeCapability_AccessMode_Mode)
    (a : List (Option VolumeCapability_AccessMode)) (b : List klog.Entry) :
    vc.foldl
      (fun (acc : List (Option VolumeCapability_AccessMode) × List klog.Entry) c =>
        (acc.1 ++ [NewVolumeCapabilityAccessMode c],
         acc.2 ++ [DefaultLog ("Enabling volume access mode: " ++ c.String names)]))
      (a, b)
    = (a ++ vc.map NewVolumeCapabilityAccessMode,
       b ++ vc.map (fun c =>
         DefaultLog ("Enabling volume access mode: " ++ c.String names))) := by
  induction vc generalizing a b with
  | nil => simp
  | cons c rest ih => simp [List.foldl_cons, ih]

/-- The driver after registering controller kinds: only `capabilities` is replaced. -/
theorem AddControllerServiceCapabilities_driver (names : EnumNames) (d : CSIDriver)
    (cl : List ControllerServiceCapability_RPC_Type) :
    (d.AddControllerServiceCapabilities names cl).1
      = { d with capabilities := cl.map NewControllerServiceCapability } := by
  simp [CSIDriver.AddControllerServiceCapabilities, AddControllerServiceCapabilities_fold]

/-- The driver after registering group-controller kinds. -/
theorem AddGroupControllerServiceCapabilities_driver (names : EnumNames) (d : CSIDriver)
    (cl : List GroupControllerServiceCapability_RPC_Type) :
    (d.AddGroupControllerServiceCapabilities names cl).1
      = { d with groupCapabilities := cl.map NewGroupControllerServiceCapability } := by
  simp [CSIDriver.AddGroupControllerServiceCapabilities,
    AddGroupControllerServiceCapabilities_fold]

/-- The returned collection and the driver after registering access modes. -/
theorem AddVolumeCapabilityAccessModes_result (names : EnumNames) (d : CSIDriver)
    (vc : List VolumeCapability_AccessMode_Mode) :
    (d.AddVolumeCapabilityAccessModes names vc).1 = vc.map NewVolumeCapabilityAccessMode ∧
    (d.AddVolumeCapabilityAccessModes names vc).2.1
      = { d with vc := vc.map NewVolumeCapabilityAccessMode } := by
  simp [CSIDriver.AddVolumeCapabilityAccessModes, AddVolumeCapabilityAccessModes_fold]

/-- The scan of the controller collection finds `c` exactly when some entry reads as `c`. -/
theorem ValidateControllerServiceRequest_range_iff (c : ControllerServiceCapability_RPC_Type)
    (l : List (Option ControllerServiceCapability)) :
    ValidateControllerServiceRequest.range c l = true ↔
      ∃ e ∈ l, c = ControllerServiceCapability_RPC.GetType
        (ControllerServiceCapability.GetRpc e) := by
  induction l with
  | nil => simp [ValidateControllerServiceRequest.range]
  | cons e rest ih =>
    by_cases h : c = ControllerServiceCapability_RPC.GetType
        (ControllerServiceCapability.GetRpc e)
    · simp [ValidateControllerServiceRequest.range, ← h]
    · simp [ValidateControllerServiceRequest.range, h, ih]

/-- The scan of the group-controller collection. -/
theorem ValidateGroupControllerServiceRequest_range_iff
    (c : GroupControllerServiceCapability_RPC_Type)
    (l : List (Option GroupControllerServiceCapability)) :
    ValidateGroupControllerServiceRequest.range c l = true ↔
      ∃ e ∈ l, c = GroupControllerServiceCapability_RPC.GetType
        (GroupControllerServiceCapability.GetRpc e) := by
  induction l with
  | nil => simp [ValidateGroupControllerServiceRequest.range]
  | cons e rest ih =>
    by_cases h : c = GroupControllerServiceCapability_RPC.GetType
        (GroupControllerServiceCapability.GetRpc e)
    · simp [ValidateGroupControllerServiceRequest.range, ← h]
    · simp [ValidateGroupControllerServiceRequest.range, h, ih]

/-- A registered entry reads back as the kind it was built from. -/
theorem GetType_NewControllerServiceCapability (c : ControllerServiceCapability_RPC_Type) :
    ControllerServiceCapability_RPC.GetType
      (ControllerServiceCapability.GetRpc (NewControllerServiceCapability c)) = c := rfl

theorem GetType_NewGroupControllerServiceCapability
    (c : GroupControllerServiceCapability_RPC_Type) :
    GroupControllerServiceCapability_RPC.GetType
      (GroupControllerServiceCapability.GetRpc (NewGroupControllerServiceCapability c)) = c := rfl

theorem GetMode_NewVolumeCapabilityAccessMode (c : VolumeCapability_AccessMode_Mode) :
    VolumeCapability_AccessMode.GetMode (NewVolumeCapabilityAccessMode c) = c := rfl

/-- Scanning a freshly registered controller collection is membership in the input. -/
theorem ValidateControllerServiceRequest_range_map (c : ControllerServiceCapability_RPC_Type)
    (S : List ControllerServiceCapability_RPC_Type) :
    ValidateControllerServiceRequest.range c (S.map NewControllerServiceCapability) = true ↔
      c ∈ S := by
  rw [ValidateControllerServiceRequest_range_iff]
  constructor
  · rintro ⟨e, he, hc⟩
    obtain ⟨x, hx, rfl⟩ := List.mem_map.1 he
    rw [GetType_NewControllerServiceCapability] at hc
    exact hc ▸ hx
  · intro h
    exact ⟨_, List.mem_map.2 ⟨c, h, rfl⟩, (GetType_NewControllerServiceCapability c).symm⟩

/-- Scanning a freshly registered group-controller collection. -/
theorem ValidateGroupControllerServiceRequest_range_map
    (c : GroupControllerServiceCapability_RPC_Type)
    (S : List GroupControllerServiceCapability_RPC_Type) :
    ValidateGroupControllerServiceRequest.range c (S.map NewGroupControllerServiceCapability)
      = true ↔ c ∈ S := by
  rw [ValidateGroupControllerServiceRequest_range_iff]
  constructor
  · rintro ⟨e, he, hc⟩
    obtain ⟨x, hx, rfl⟩ := List.mem_map.1 he
    rw [GetType_NewGroupControllerServiceCapability] at hc
    exact hc ▸ hx
  · intro h
    exact ⟨_, List.mem_map.2 ⟨c, h, rfl⟩, (GetType_NewGroupControllerServiceCapability c).symm⟩

/-- Validation of a controller kind succeeds exactly for the sentinel and for a kind
that the scan finds. -/
theorem ValidateControllerServiceRequest_eq_none (names : EnumNames) (d : CSIDriver)
    (c : ControllerServiceCapability_RPC_Type) :
    d.ValidateControllerServiceRequest names c = none ↔
      (c = ControllerServiceCapability_RPC_UNKNOWN ∨
        ValidateControllerServiceRequest.range c d.capabilities = true) := by
  unfold CSIDriver.ValidateControllerServiceRequest
  by_cases h1 : c = ControllerServiceCapability_RPC_UNKNOWN
  · simp [h1]
  · by_cases h2 : ValidateControllerServiceRequest.range c d.capabilities = true
    · simp [h2]
    · simp [h1, h2, status.Error]

/-- Validation of a group-controller kind. -/
theorem ValidateGroupControllerServiceRequest_eq_none (names : EnumNames) (d : CSIDriver)
    (c : GroupControllerServiceCapability_RPC_Type) :
    d.ValidateGroupControllerServiceRequest names c = none ↔
      (c = GroupControllerServiceCapability_RPC_UNKNOWN ∨
        ValidateGroupControllerServiceRequest.range c d.groupCapabilities = true) := by
  unfold CSIDriver.ValidateGroupControllerServiceRequest
  by_cases h1 : c = GroupControllerServiceCapability_RPC_UNKNOWN
  · simp [h1]
  · by_cases h2 : ValidateGroupControllerServiceRequest.range c d.groupCapabilities = true
    · simp [h2]
    · simp [h1, h2, status.Error]

/-! ## Registration followed by validation -/

/-- C1: for every driver, every sequence `S` of controller kinds and every kind `k`,
after `AddControllerServiceCapabilities(S)` the call
`ValidateControllerServiceRequest(k)` returns no error if and only if `k` occurs in `S`
or `k` is `ControllerServiceCapability_RPC_UNKNOWN`. With
`[CREATE_DELETE_VOLUME, EXPAND_VOLUME]` registered, `CREATE_DELETE_VOLUME` and `UNKNOWN`
are accepted and `CLONE_VOLUME` is rejected. -/
theorem C1_controller_validate_iff_registered :
    (∀ (names names' : EnumNames) (d : CSIDriver)
        (S : List ControllerServiceCapability_RPC_Type)
        (k : ControllerServiceCapability_RPC_Type),
      (d.AddControllerServiceCapabilities names S).1.ValidateControllerServiceRequest names' k
          = none ↔
        (k ∈ S ∨ k = ControllerServiceCapability_RPC_UNKNOWN)) ∧
    (∀ (names names' : EnumNames) (d : CSIDriver),
      (d.AddControllerServiceCapabilities names
          [ControllerServiceCapability_RPC_CREATE_DELETE_VOLUME,
           ControllerServiceCapability_RPC_EXPAND_VOLUME]).1.ValidateControllerServiceRequest
          names' ControllerServiceCapability_RPC_CREATE_DELETE_VOLUME = none ∧
      (d.AddControllerServiceCapabilities names
          [ControllerServiceCapability_RPC_CREATE_DELETE_VOLUME,
           ControllerServiceCapability_RPC_EXPAND_VOLUME]).1.ValidateControllerServiceRequest
          names' ControllerServiceCapability_RPC_UNKNOWN = none ∧
      (d.AddControllerServiceCapabilities names
          [ControllerServiceCapability_RPC_CREATE_DELETE_VOLUME,
           ControllerServiceCapability_RPC_EXPAND_VOLUME]).1.ValidateControllerServiceRequest
          names' ControllerServiceCapability_RPC_CLONE_VOLUME ≠ none) := by
  have key : ∀ (names names' : EnumNames) (d : CSIDriver)
      (S : List ControllerServiceCapability_RPC_Type)
      (k : ControllerServiceCapability_RPC_Type),
      (d.AddControllerServiceCapabilities names S).1.ValidateControllerServiceRequest names' k
          = none ↔
        (k ∈ S ∨ k = ControllerServiceCapability_RPC_UNKNOWN) := by
    intro names names' d S k
    rw [ValidateControllerServiceRequest_eq_none, AddControllerServiceCapabilities_driver]
    simp only [ValidateControllerServiceRequest_range_map]
    exact Or.comm
  refine ⟨key, fun names names' d => ⟨?_, ?_, ?_⟩⟩
  · exact (key names names' d _ _).2 (Or.inl (by decide))
  · exact (key names names' d _ _).2 (Or.inr rfl)
  · intro h
    exact absurd ((key names names' d _ _).1 h) (by decide)

/-- C2: for every driver, every sequence `S` of group-controller kinds and every kind
`k`, after `AddGroupControllerServiceCapabilities(S)` the call
`ValidateGroupControllerServiceRequest(k)` returns no error if and only if `k` occurs in
`S` or `k` is `GroupControllerServiceCapability_RPC_UNKNOWN`. -/
theorem C2_group_validate_iff_registered (names names' : EnumNames) (d : CSIDriver)
    (S : List GroupControllerServiceCapability_RPC_Type)
    (k : GroupControllerServiceCapability_RPC_Type) :
    (d.AddGroupControllerServiceCapabilities names S).1.ValidateGroupControllerServiceRequest
        names' k = none ↔
      (k ∈ S ∨ k = GroupControllerServiceCapability_RPC_UNKNOWN) := by
  rw [ValidateGroupControllerServiceRequest_eq_none, AddGroupControllerServiceCapabilities_driver]
  simp only [ValidateGroupControllerServiceRequest_range_map]
  exact Or.comm

/-- C3: `NewCSIDriver(name, v, nodeID, instance)` yields no driver if and only if at least
one of the four arguments is the empty string; when all four are non-empty it yields a
driver whose `name`, `version`, `nodeID` and `instance` are the given values and whose
`GetInstanceID()` is `instance`. With `name = ""`, `nodeID = "n1"`, `version = "1.0"`,
`instance = "i1"` no driver is produced. -/
theorem C3_NewCSIDriver_nil_iff_empty (name v nodeID instance_ : String) :
    ((NewCSIDriver name v nodeID instance_).1 = none ↔
      (name = "" ∨ v = "" ∨ nodeID = "" ∨ instance_ = "")) ∧
    (name ≠ "" → v ≠ "" → nodeID ≠ "" → instance_ ≠ "" →
      ∃ d : CSIDriver, (NewCSIDriver name v nodeID instance_).1 = some d ∧
        d.name = name ∧ d.version = v ∧ d.nodeID = nodeID ∧ d.instance_ = instance_ ∧
        d.GetInstanceID = instance_) ∧
    (NewCSIDriver "" "1.0" "n1" "i1").1 = none := by
  refine ⟨?_, ?_, by decide⟩
  · unfold NewCSIDriver
    by_cases h1 : name = "" <;> by_cases h2 : nodeID = "" <;> by_cases h3 : v = "" <;>
      by_cases h4 : instance_ = "" <;> simp [h1, h2, h3, h4]
  · intro h1 h2 h3 h4
    refine ⟨{ name := name, version := v, nodeID := nodeID, instance_ := instance_,
              topology := [], capabilities := [], groupCapabilities := [], vc := [] },
            ?_, rfl, rfl, rfl, rfl, rfl⟩
    simp [NewCSIDriver, h1, h2, h3, h4]

/-- Instance of C3 at `name = "rbd.csi.ceph.com"`, `v = "1.0"`, `nodeID = "n1"`,
`instance = "i1"`: a driver is produced and its `GetInstanceID()` is `"i1"`. -/
theorem C3_NewCSIDriver_nil_iff_empty_witness :
    (NewCSIDriver "rbd.csi.ceph.com" "1.0" "n1" "i1").1.map CSIDriver.GetInstanceID
      = some "i1" := by
  obtain ⟨d, hd, _, _, _, _, hi⟩ :=
    (C3_NewCSIDriver_nil_iff_empty "rbd.csi.ceph.com" "1.0" "n1" "i1").2.1
      (by decide) (by decide) (by decide) (by decide)
  rw [hd]
  exact congrArg some hi

/-- C4: in every driver state and for every kind `k`, a failing
`ValidateControllerServiceRequest(k)` or `ValidateGroupControllerServiceRequest(k)`
returns the error with code `InvalidArgument` and message `k.String()`, and no other
error is ever returned. With `[CREATE_DELETE_VOLUME, EXPAND_VOLUME]` registered,
validating `CLONE_VOLUME` fails with `InvalidArgument` and message `"CLONE_VOLUME"`. -/
theorem C4_validate_error_is_InvalidArgument :
    (∀ (names : EnumNames) (d : CSIDriver) (k : ControllerServiceCapability_RPC_Type),
      d.ValidateControllerServiceRequest names k = none ∨
      d.ValidateControllerServiceRequest names k
        = some { code := codes.Code.InvalidArgument, message := k.String names }) ∧
    (∀ (names : EnumNames) (d : CSIDriver) (k : GroupControllerServiceCapability_RPC_Type),
      d.ValidateGroupControllerServiceRequest names k = none ∨
      d.ValidateGroupControllerServiceRequest names k
        = some { code := codes.Code.InvalidArgument, message := k.String names }) ∧
    (∀ (names : EnumNames) (d : CSIDriver),
      (d.AddControllerServiceCapabilities names
          [ControllerServiceCapability_RPC_CREATE_DELETE_VOLUME,
           ControllerServiceCapability_RPC_EXPAND_VOLUME]).1.ValidateControllerServiceRequest
          ControllerServiceCapability_RPC_Type_name ControllerServiceCapability_RPC_CLONE_VOLUME
        = some { code := codes.Code.InvalidArgument, message := "CLONE_VOLUME" }) := by
  refine ⟨?_, ?_, ?_⟩
  · intro names d k
    unfold CSIDriver.ValidateControllerServiceRequest
    by_cases h1 : k = ControllerServiceCapability_RPC_UNKNOWN
    · simp [h1]
    · by_cases h2 : ValidateControllerServiceRequest.range k d.capabilities = true
      · simp [h2]
      · simp [h1, h2, status.Error]
  · intro names d k
    unfold CSIDriver.ValidateGroupControllerServiceRequest
    by_cases h1 : k = GroupControllerServiceCapability_RPC_UNKNOWN
    · simp [h1]
    · by_cases h2 : ValidateGroupControllerServiceRequest.range k d.groupCapabilities = true
      · simp [h2]
      · simp [h1, h2, status.Error]
  · intro names d
    rw [AddControllerServiceCapabilities_driver]
    have hr : ValidateControllerServiceRequest.range ControllerServiceCapability_RPC_CLONE_VOLUME
        [NewControllerServiceCapability ControllerServiceCapability_RPC_CREATE_DELETE_VOLUME,
         NewControllerServiceCapability ControllerServiceCapability_RPC_EXPAND_VOLUME]
        = false := by decide
    have hk : ControllerServiceCapability_RPC_CLONE_VOLUME
        ≠ ControllerServiceCapability_RPC_UNKNOWN := by decide
    have hs : ControllerServiceCapability_RPC_CLONE_VOLUME.String
        ControllerServiceCapability_RPC_Type_name = "CLONE_VOLUME" := by decide
    simp [CSIDriver.ValidateControllerServiceRequest, hr, hk, hs, status.Error]

/-- C5: in every driver state, `ValidateControllerServiceRequest` of
`ControllerServiceCapability_RPC_UNKNOWN` and `ValidateGroupControllerServiceRequest` of
`GroupControllerServiceCapability_RPC_UNKNOWN` return no error. -/
theorem C5_unknown_always_valid (names : EnumNames) (d : CSIDriver) :
    d.ValidateControllerServiceRequest names ControllerServiceCapability_RPC_UNKNOWN = none ∧
    d.ValidateGroupControllerServiceRequest names GroupControllerServiceCapability_RPC_UNKNOWN
      = none := by
  constructor
  · simp [CSIDriver.ValidateControllerServiceRequest]
  · simp [CSIDriver.ValidateGroupControllerServiceRequest]

/-! ## Registration replaces the collection -/

/-- C6: registration replaces, it does not merge. For every driver and all sequences
`S1`, `S2`, the driver after `AddControllerServiceCapabilities(S1)` followed by
`AddControllerServiceCapabilities(S2)` equals the driver after
`AddControllerServiceCapabilities(S2)` alone, and every non-sentinel kind that occurs in
`S1` but not in `S2` is rejected by `ValidateControllerServiceRequest`; the same holds
for the group-controller registration, and after two access-mode registrations the
driver and the returned collection are those of the second call alone: the stored access
modes are the entries built from `M2`, they carry the modes of `M2` in order, and no
stored entry carries a mode that occurs in `M1` but not in `M2`. -/
theorem C6_registration_replaces (names names' names'' : EnumNames) (d : CSIDriver) :
    (∀ S1 S2 : List ControllerServiceCapability_RPC_Type,
      ((d.AddControllerServiceCapabilities names S1).1.AddControllerServiceCapabilities
          names' S2).1 = (d.AddControllerServiceCapabilities names' S2).1 ∧
      (∀ k : ControllerServiceCapability_RPC_Type,
        k ∈ S1 → k ∉ S2 → k ≠ ControllerServiceCapability_RPC_UNKNOWN →
        ((d.AddControllerServiceCapabilities names S1).1.AddControllerServiceCapabilities
          names' S2).1.ValidateControllerServiceRequest names'' k ≠ none)) ∧
    (∀ S1 S2 : List GroupControllerServiceCapability_RPC_Type,
      ((d.AddGroupControllerServiceCapabilities names
          S1).1.AddGroupControllerServiceCapabilities names' S2).1
        = (d.AddGroupControllerServiceCapabilities names' S2).1 ∧
      (∀ k : GroupControllerServiceCapability_RPC_Type,
        k ∈ S1 → k ∉ S2 → k ≠ GroupControllerServiceCapability_RPC_UNKNOWN →
        ((d.AddGroupControllerServiceCapabilities names
          S1).1.AddGroupControllerServiceCapabilities names'
          S2).1.ValidateGroupControllerServiceRequest names'' k ≠ none)) ∧
    (∀ M1 M2 : List VolumeCapability_AccessMode_Mode,
      ((d.AddVolumeCapabilityAccessModes names M1).2.1.AddVolumeCapabilityAccessModes
          names' M2).2.1 = (d.AddVolumeCapabilityAccessModes names' M2).2.1 ∧
      ((d.AddVolumeCapabilityAccessModes names M1).2.1.AddVolumeCapabilityAccessModes
          names' M2).1 = (d.AddVolumeCapabilityAccessModes names' M2).1 ∧
      ((d.AddVolumeCapabilityAccessModes names M1).2.1.AddVolumeCapabilityAccessModes
          names' M2).2.1.GetVolumeCapabilityAccessModes
        = M2.map NewVolumeCapabilityAccessMode ∧
      (((d.AddVolumeCapabilityAccessModes names M1).2.1.AddVolumeCapabilityAccessModes
          names' M2).2.1.GetVolumeCapabilityAccessModes).map
          VolumeCapability_AccessMode.GetMode = M2 ∧
      (∀ m : VolumeCapability_AccessMode_Mode, m ∈ M1 → m ∉ M2 →
        ∀ e ∈ ((d.AddVolumeCapabilityAccessModes names
            M1).2.1.AddVolumeCapabilityAccessModes names'
            M2).2.1.GetVolumeCapabilityAccessModes,
          VolumeCapability_AccessMode.GetMode e ≠ m)) := by
  refine ⟨fun S1 S2 => ⟨?_, ?_⟩, fun S1 S2 => ⟨?_, ?_⟩, fun M1 M2 => ⟨?_, ?_, ?_, ?_, ?_⟩⟩
  · simp only [AddControllerServiceCapabilities_driver]
  · intro k _ h2 h3 h
    rw [ValidateControllerServiceRequest_eq_none, AddControllerServiceCapabilities_driver] at h
    simp only [ValidateControllerServiceRequest_range_map] at h
    exact h.elim h3 h2
  · simp only [AddGroupControllerServiceCapabilities_driver]
  · intro k _ h2 h3 h
    rw [ValidateGroupControllerServiceRequest_eq_none,
      AddGroupControllerServiceCapabilities_driver] at h
    simp only [ValidateGroupControllerServiceRequest_range_map] at h
    exact h.elim h3 h2
  · simp only [(AddVolumeCapabilityAccessModes_result _ _ _).2]
  · simp only [(AddVolumeCapabilityAccessModes_result _ _ _).1]
  · rw [(AddVolumeCapabilityAccessModes_result _ _ _).2]
    rfl
  · rw [(AddVolumeCapabilityAccessModes_result _ _ _).2]
    show (M2.map NewVolumeCapabilityAccessMode).map VolumeCapability_AccessMode.GetMode = M2
    have hid : (VolumeCapability_AccessMode.GetMode ∘ NewVolumeCapabilityAccessMode) = id := by
      funext c
      rfl
    rw [List.map_map, hid, List.map_id]
  · intro m _ h2 e he hm
    rw [(AddVolumeCapabilityAccessModes_result _ _ _).2] at he
    obtain ⟨x, hx, rfl⟩ := List.mem_map.1 he
    rw [GetMode_NewVolumeCapabilityAccessMode] at hm
    exact h2 (hm ▸ hx)

/-- Instance of C6: a driver registers `[CLONE_VOLUME]`, then `[EXPAND_VOLUME]`;
`CLONE_VOLUME` is rejected afterwards. -/
theorem C6_registration_replaces_witness :
    (((({ name := "rbd.csi.ceph.com", nodeID := "n1", version := "1.0", instance_ := "i1",
          topology := [], capabilities := [], groupCapabilities := [],
          vc := [] } : CSIDriver).AddControllerServiceCapabilities
        ControllerServiceCapability_RPC_Type_name
        [ControllerServiceCapability_RPC_CLONE_VOLUME]).1.AddControllerServiceCapabilities
        ControllerServiceCapability_RPC_Type_name
        [ControllerServiceCapability_RPC_EXPAND_VOLUME]).1.ValidateControllerServiceRequest
        ControllerServiceCapability_RPC_Type_name ControllerServiceCapability_RPC_CLONE_VOLUME)
      ≠ none :=
  ((C6_registration_replaces ControllerServiceCapability_RPC_Type_name
      ControllerServiceCapability_RPC_Type_name ControllerServiceCapability_RPC_Type_name
      { name := "rbd.csi.ceph.com", nodeID := "n1", version := "1.0", instance_ := "i1",
        topology := [], capabilities := [], groupCapabilities := [], vc := [] }).1
    [ControllerServiceCapability_RPC_CLONE_VOLUME]
    [ControllerServiceCapability_RPC_EXPAND_VOLUME]).2
    ControllerServiceCapability_RPC_CLONE_VOLUME (by decide) (by decide) (by decide)

/-- C7: for every input sequence `S` (duplicates allowed), each of
`AddControllerServiceCapabilities`, `AddGroupControllerServiceCapabilities` and
`AddVolumeCapabilityAccessModes` leaves the corresponding collection with exactly
`len(S)` entries, the entry at index `i` is the capability built from `S[i]`, and the
kind it carries equals `S[i]`; beyond `len(S)` there is no entry. -/
theorem C7_registration_stores_input_in_order (names : EnumNames) (d : CSIDriver) :
    (∀ S : List ControllerServiceCapability_RPC_Type,
      (d.AddControllerServiceCapabilities names S).1.capabilities.length = S.length ∧
      (∀ i : Nat, (d.AddControllerServiceCapabilities names S).1.capabilities[i]?
        = (S[i]?).map NewControllerServiceCapability) ∧
      (∀ i : Nat, ((d.AddControllerServiceCapabilities names S).1.capabilities[i]?).map
          (fun e => ControllerServiceCapability_RPC.GetType
            (ControllerServiceCapability.GetRpc e)) = S[i]?)) ∧
    (∀ S : List GroupControllerServiceCapability_RPC_Type,
      (d.AddGroupControllerServiceCapabilities names S).1.groupCapabilities.length
        = S.length ∧
      (∀ i : Nat, (d.AddGroupControllerServiceCapabilities names S).1.groupCapabilities[i]?
        = (S[i]?).map NewGroupControllerServiceCapability) ∧
      (∀ i : Nat,
        ((d.AddGroupControllerServiceCapabilities names S).1.groupCapabilities[i]?).map
          (fun e => GroupControllerServiceCapability_RPC.GetType
            (GroupControllerServiceCapability.GetRpc e)) = S[i]?)) ∧
    (∀ S : List VolumeCapability_AccessMode_Mode,
      (d.AddVolumeCapabilityAccessModes names S).2.1.vc.length = S.length ∧
      (∀ i : Nat, (d.AddVolumeCapabilityAccessModes names S).2.1.vc[i]?
        = (S[i]?).map NewVolumeCapabilityAccessMode) ∧
      (∀ i : Nat, ((d.AddVolumeCapabilityAccessModes names S).2.1.vc[i]?).map
          VolumeCapability_AccessMode.GetMode = S[i]?)) := by
  refine ⟨fun S => ?_, fun S => ?_, fun S => ?_⟩
  · rw [AddControllerServiceCapabilities_driver]
    refine ⟨by simp, fun i => by simp [List.getElem?_map], fun i => ?_⟩
    simp only [List.getElem?_map, Option.map_map]
    cases S[i]? <;> rfl
  · rw [AddGroupControllerServiceCapabilities_driver]
    refine ⟨by simp, fun i => by simp [List.getElem?_map], fun i => ?_⟩
    simp only [List.getElem?_map, Option.map_map]
    cases S[i]? <;> rfl
  · rw [(AddVolumeCapabilityAccessModes_result _ _ _).2]
    refine ⟨by simp, fun i => by simp [List.getElem?_map], fun i => ?_⟩
    simp only [List.getElem?_map, Option.map_map]
    cases S[i]? <;> rfl

/-- C8: for every driver and every sequence `M` of access modes, the collection
returned by `AddVolumeCapabilityAccessModes(M)` equals the collection that
`GetVolumeCapabilityAccessModes()` returns immediately afterwards, and it has one entry
per element of `M` in input order. With `M = [SINGLE_NODE_WRITER]` the accessor returns a
one-element collection whose single mode is `SINGLE_NODE_WRITER`. -/
theorem C8_access_modes_returned_and_stored :
    (∀ (names : EnumNames) (d : CSIDriver) (M : List VolumeCapability_AccessMode_Mode),
      (d.AddVolumeCapabilityAccessModes names M).1
        = (d.AddVolumeCapabilityAccessModes names M).2.1.GetVolumeCapabilityAccessModes ∧
      (d.AddVolumeCapabilityAccessModes names M).1.length = M.length ∧
      (∀ i : Nat, ((d.AddVolumeCapabilityAccessModes names M).1[i]?).map
          VolumeCapability_AccessMode.GetMode = M[i]?)) ∧
    (∀ (names : EnumNames) (d : CSIDriver),
      (d.AddVolumeCapabilityAccessModes names
          [VolumeCapability_AccessMode_SINGLE_NODE_WRITER]).2.1.GetVolumeCapabilityAccessModes
        = [some { Mode := VolumeCapability_AccessMode_SINGLE_NODE_WRITER }]) := by
  refine ⟨fun names d M => ⟨?_, ?_, fun i => ?_⟩, fun names d => ?_⟩
  · rw [(AddVolumeCapabilityAccessModes_result _ _ _).2,
      (AddVolumeCapabilityAccessModes_result _ _ _).1]
    rfl
  · rw [(AddVolumeCapabilityAccessModes_result _ _ _).1]
    simp
  · rw [(AddVolumeCapabilityAccessModes_result _ _ _).1]
    simp only [List.getElem?_map, Option.map_map]
    cases M[i]? <;> rfl
  · rw [(AddVolumeCapabilityAccessModes_result _ _ _).2]
    rfl

/-! ## The empty collections -/

/-- C9: for all non-empty `name`, `v`, `nodeID`, `instance`, the driver returned by
`NewCSIDriver` has zero-length controller, group-controller and access-mode collections:
before any registration `GetVolumeCapabilityAccessModes()` returns an empty collection,
and `ValidateControllerServiceRequest(k)` and `ValidateGroupControllerServiceRequest(k)`
fail for every kind `k` other than the `UNKNOWN` sentinel. -/
theorem C9_new_driver_has_empty_collections (names : EnumNames)
    (name v nodeID instance_ : String)
    (hname : name ≠ "") (hv : v ≠ "") (hnode : nodeID ≠ "") (hinst : instance_ ≠ "") :
    ∃ d : CSIDriver, (NewCSIDriver name v nodeID instance_).1 = some d ∧
      d.capabilities.length = 0 ∧ d.groupCapabilities.length = 0 ∧ d.vc.length = 0 ∧
      d.GetVolumeCapabilityAccessModes = [] ∧
      (∀ k : ControllerServiceCapability_RPC_Type,
        k ≠ ControllerServiceCapability_RPC_UNKNOWN →
        d.ValidateControllerServiceRequest names k ≠ none) ∧
      (∀ k : GroupControllerServiceCapability_RPC_Type,
        k ≠ GroupControllerServiceCapability_RPC_UNKNOWN →
        d.ValidateGroupControllerServiceRequest names k ≠ none) := by
  refine ⟨{ name := name, version := v, nodeID := nodeID, instance_ := instance_,
            topology := [], capabilities := [], groupCapabilities := [], vc := [] },
          ?_, rfl, rfl, rfl, rfl, ?_, ?_⟩
  · simp [NewCSIDriver, hname, hv, hnode, hinst]
  · intro k hk h
    rw [ValidateControllerServiceRequest_eq_none] at h
    simp [hk, ValidateControllerServiceRequest.range] at h
  · intro k hk h
    rw [ValidateGroupControllerServiceRequest_eq_none] at h
    simp [hk, ValidateGroupControllerServiceRequest.range] at h

/-- Instance of C9 at `name = "rbd.csi.ceph.com"`, `v = "1.0"`, `nodeID = "n1"`,
`instance = "i1"`: the new driver has no access modes. -/
theorem C9_new_driver_has_empty_collections_witness :
    (NewCSIDriver "rbd.csi.ceph.com" "1.0" "n1" "i1").1.map
      CSIDriver.GetVolumeCapabilityAccessModes = some [] := by
  obtain ⟨d, hd, _, _, _, hvc, _, _⟩ :=
    C9_new_driver_has_empty_collections ControllerServiceCapability_RPC_Type_name
      "rbd.csi.ceph.com" "1.0" "n1" "i1" (by decide) (by decide) (by decide) (by decide)
  rw [hd]
  exact congrArg some hvc

/-- C10: for every driver, whatever was registered before, after
`AddControllerServiceCapabilities([])` the controller collection is empty and
`ValidateControllerServiceRequest(k)` succeeds for the `UNKNOWN` sentinel only; likewise
for `AddGroupControllerServiceCapabilities([])` and
`ValidateGroupControllerServiceRequest(k)`. Registering the empty sequence returns the
driver with the collection emptied and writes nothing to the log. -/
theorem C10_register_empty_rejects_all (names names' : EnumNames) (d : CSIDriver) :
    (d.AddControllerServiceCapabilities names [] = ({ d with capabilities := [] }, []) ∧
      (d.AddControllerServiceCapabilities names []).1.capabilities = [] ∧
      (∀ k : ControllerServiceCapability_RPC_Type,
        (d.AddControllerServiceCapabilities names []).1.ValidateControllerServiceRequest
          names' k = none ↔ k = ControllerServiceCapability_RPC_UNKNOWN)) ∧
    (d.AddGroupControllerServiceCapabilities names []
        = ({ d with groupCapabilities := [] }, []) ∧
      (d.AddGroupControllerServiceCapabilities names []).1.groupCapabilities = [] ∧
      (∀ k : GroupControllerServiceCapability_RPC_Type,
        (d.AddGroupControllerServiceCapabilities names
          []).1.ValidateGroupControllerServiceRequest names' k = none ↔
        k = GroupControllerServiceCapability_RPC_UNKNOWN)) := by
  refine ⟨⟨rfl, rfl, fun k => ?_⟩, ⟨rfl, rfl, fun k => ?_⟩⟩
  · rw [ValidateControllerServiceRequest_eq_none]
    simp [CSIDriver.AddControllerServiceCapabilities,
      ValidateControllerServiceRequest.range]
  · rw [ValidateGroupControllerServiceRequest_eq_none]
    simp [CSIDriver.AddGroupControllerServiceCapabilities,
      ValidateGroupControllerServiceRequest.range]

/-! ## Validation as a function of the registered kinds -/

/-- The result of validating a controller kind is decided by the scan alone. -/
theorem ValidateControllerServiceRequest_congr (names : EnumNames) (d d' : CSIDriver)
    (k : ControllerServiceCapability_RPC_Type)
    (h : ValidateControllerServiceRequest.range k d.capabilities
      = ValidateControllerServiceRequest.range k d'.capabilities) :
    d.ValidateControllerServiceRequest names k
      = d'.ValidateControllerServiceRequest names k := by
  unfold CSIDriver.ValidateControllerServiceRequest
  rw [h]

/-- The result of validating a group-controller kind is decided by the scan alone. -/
theorem ValidateGroupControllerServiceRequest_congr (names : EnumNames) (d d' : CSIDriver)
    (k : GroupControllerServiceCapability_RPC_Type)
    (h : ValidateGroupControllerServiceRequest.range k d.groupCapabilities
      = ValidateGroupControllerServiceRequest.range k d'.groupCapabilities) :
    d.ValidateGroupControllerServiceRequest names k
      = d'.ValidateGroupControllerServiceRequest names k := by
  unfold CSIDriver.ValidateGroupControllerServiceRequest
  rw [h]

/-- Two registered controller sequences with the same members validate alike, whatever
entry the registration builds for a kind. -/
theorem ValidateControllerServiceRequest_of_same_members (names names' names'' : EnumNames)
    (d : CSIDriver) (S S' : List ControllerServiceCapability_RPC_Type)
    (h : ∀ x, x ∈ S ↔ x ∈ S') (k : ControllerServiceCapability_RPC_Type) :
    (d.AddControllerServiceCapabilities names S).1.ValidateControllerServiceRequest names'' k
      = (d.AddControllerServiceCapabilities names' S').1.ValidateControllerServiceRequest
          names'' k := by
  apply ValidateControllerServiceRequest_congr
  rw [AddControllerServiceCapabilities_driver, AddControllerServiceCapabilities_driver,
    Bool.eq_iff_iff]
  simp only [ValidateControllerServiceRequest_range_iff, List.mem_map]
  constructor
  · rintro ⟨e, ⟨x, hx, rfl⟩, hc⟩
    exact ⟨_, ⟨x, (h x).1 hx, rfl⟩, hc⟩
  · rintro ⟨e, ⟨x, hx, rfl⟩, hc⟩
    exact ⟨_, ⟨x, (h x).2 hx, rfl⟩, hc⟩

/-- Two registered group-controller sequences with the same members validate alike. -/
theorem ValidateGroupControllerServiceRequest_of_same_members
    (names names' names'' : EnumNames) (d : CSIDriver)
    (S S' : List GroupControllerServiceCapability_RPC_Type)
    (h : ∀ x, x ∈ S ↔ x ∈ S') (k : GroupControllerServiceCapability_RPC_Type) :
    (d.AddGroupControllerServiceCapabilities names S).1.ValidateGroupControllerServiceRequest
        names'' k
      = (d.AddGroupControllerServiceCapabilities names'
          S').1.ValidateGroupControllerServiceRequest names'' k := by
  apply ValidateGroupControllerServiceRequest_congr
  rw [AddGroupControllerServiceCapabilities_driver,
    AddGroupControllerServiceCapabilities_driver, Bool.eq_iff_iff]
  simp only [ValidateGroupControllerServiceRequest_range_iff, List.mem_map]
  constructor
  · rintro ⟨e, ⟨x, hx, rfl⟩, hc⟩
    exact ⟨_, ⟨x, (h x).1 hx, rfl⟩, hc⟩
  · rintro ⟨e, ⟨x, hx, rfl⟩, hc⟩
    exact ⟨_, ⟨x, (h x).2 hx, rfl⟩, hc⟩

/-- C11: validation is order-independent. For every driver, all sequences `S` and `S'`
where `S'` is a permutation of `S`, and every kind `k`,
`ValidateControllerServiceRequest(k)` after `AddControllerServiceCapabilities(S)` returns
the same result (no error, or the same error) as after
`AddControllerServiceCapabilities(S')`; the same holds for the group-controller pair. -/
theorem C11_validation_order_independent (names names' names'' : EnumNames) (d : CSIDriver) :
    (∀ S S' : List ControllerServiceCapability_RPC_Type, S'.Perm S →
      ∀ k : ControllerServiceCapability_RPC_Type,
        (d.AddControllerServiceCapabilities names S).1.ValidateControllerServiceRequest
            names'' k
          = (d.AddControllerServiceCapabilities names' S').1.ValidateControllerServiceRequest
              names'' k) ∧
    (∀ S S' : List GroupControllerServiceCapability_RPC_Type, S'.Perm S →
      ∀ k : GroupControllerServiceCapability_RPC_Type,
        (d.AddGroupControllerServiceCapabilities names
            S).1.ValidateGroupControllerServiceRequest names'' k
          = (d.AddGroupControllerServiceCapabilities names'
              S').1.ValidateGroupControllerServiceRequest names'' k) := by
  constructor
  · intro S S' hp k
    exact ValidateControllerServiceRequest_of_same_members names names' names'' d S S'
      (fun x => (hp.mem_iff).symm) k
  · intro S S' hp k
    exact ValidateGroupControllerServiceRequest_of_same_members names names' names'' d S S'
      (fun x => (hp.mem_iff).symm) k

/-- Instance of C11: registering `[CREATE_DELETE_VOLUME, EXPAND_VOLUME]` or
`[EXPAND_VOLUME, CREATE_DELETE_VOLUME]` gives the same answer for `CLONE_VOLUME`. -/
theorem C11_validation_order_independent_witness :
    (({ name := "rbd.csi.ceph.com", nodeID := "n1", version := "1.0", instance_ := "i1",
        topology := [], capabilities := [], groupCapabilities := [],
        vc := [] } : CSIDriver).AddControllerServiceCapabilities
        ControllerServiceCapability_RPC_Type_name
        [ControllerServiceCapability_RPC_CREATE_DELETE_VOLUME,
         ControllerServiceCapability_RPC_EXPAND_VOLUME]).1.ValidateControllerServiceRequest
        ControllerServiceCapability_RPC_Type_name ControllerServiceCapability_RPC_CLONE_VOLUME
      = (({ name := "rbd.csi.ceph.com", nodeID := "n1", version := "1.0", instance_ := "i1",
            topology := [], capabilities := [], groupCapabilities := [],
            vc := [] } : CSIDriver).AddControllerServiceCapabilities
        ControllerServiceCapability_RPC_Type_name
        [ControllerServiceCapability_RPC_EXPAND_VOLUME,
         ControllerServiceCapability_RPC_CREATE_DELETE_VOLUME]).1.ValidateControllerServiceRequest
        ControllerServiceCapability_RPC_Type_name ControllerServiceCapability_RPC_CLONE_VOLUME :=
  (C11_validation_order_independent ControllerServiceCapability_RPC_Type_name
      ControllerServiceCapability_RPC_Type_name ControllerServiceCapability_RPC_Type_name
      { name := "rbd.csi.ceph.com", nodeID := "n1", version := "1.0", instance_ := "i1",
        topology := [], capabilities := [], groupCapabilities := [], vc := [] }).1
    [ControllerServiceCapability_RPC_CREATE_DELETE_VOLUME,
     ControllerServiceCapability_RPC_EXPAND_VOLUME]
    [ControllerServiceCapability_RPC_EXPAND_VOLUME,
     ControllerServiceCapability_RPC_CREATE_DELETE_VOLUME]
    (List.Perm.swap _ _ _) ControllerServiceCapability_RPC_CLONE_VOLUME

/-! ## Idempotence and independence of the registrations -/

/-- C12: registration is idempotent. For every driver and every input sequence `S`,
a second `AddControllerServiceCapabilities(S)` right after the first leaves the driver
as the first call left it (and writes the same log entries as the first); the same holds
for `AddGroupControllerServiceCapabilities` and for `AddVolumeCapabilityAccessModes`,
whose second call also returns a collection equal to the one the first call returned. -/
theorem C12_registration_idempotent (names : EnumNames) (d : CSIDriver) :
    (∀ S : List ControllerServiceCapability_RPC_Type,
      ((d.AddControllerServiceCapabilities names S).1.AddControllerServiceCapabilities
          names S).1 = (d.AddControllerServiceCapabilities names S).1 ∧
      (d.AddControllerServiceCapabilities names S).1.AddControllerServiceCapabilities
          names S = d.AddControllerServiceCapabilities names S) ∧
    (∀ S : List GroupControllerServiceCapability_RPC_Type,
      ((d.AddGroupControllerServiceCapabilities names
          S).1.AddGroupControllerServiceCapabilities names S).1
        = (d.AddGroupControllerServiceCapabilities names S).1 ∧
      (d.AddGroupControllerServiceCapabilities names
          S).1.AddGroupControllerServiceCapabilities names S
        = d.AddGroupControllerServiceCapabilities names S) ∧
    (∀ M : List VolumeCapability_AccessMode_Mode,
      ((d.AddVolumeCapabilityAccessModes names M).2.1.AddVolumeCapabilityAccessModes
          names M).2.1 = (d.AddVolumeCapabilityAccessModes names M).2.1 ∧
      ((d.AddVolumeCapabilityAccessModes names M).2.1.AddVolumeCapabilityAccessModes
          names M).1 = (d.AddVolumeCapabilityAccessModes names M).1 ∧
      (d.AddVolumeCapabilityAccessModes names M).2.1.AddVolumeCapabilityAccessModes
          names M = d.AddVolumeCapabilityAccessModes names M) := by
  refine ⟨fun S => ?_, fun S => ?_, fun M => ?_⟩
  · have h : (d.AddControllerServiceCapabilities names S).1.AddControllerServiceCapabilities
        names S = d.AddControllerServiceCapabilities names S := by
      simp [CSIDriver.AddControllerServiceCapabilities]
    exact ⟨by rw [h], h⟩
  · have h : (d.AddGroupControllerServiceCapabilities names
        S).1.AddGroupControllerServiceCapabilities names S
        = d.AddGroupControllerServiceCapabilities names S := by
      simp [CSIDriver.AddGroupControllerServiceCapabilities]
    exact ⟨by rw [h], h⟩
  · have h : (d.AddVolumeCapabilityAccessModes names M).2.1.AddVolumeCapabilityAccessModes
        names M = d.AddVolumeCapabilityAccessModes names M := by
      simp [CSIDriver.AddVolumeCapabilityAccessModes]
    exact ⟨by rw [h], by rw [h], h⟩

/-- C13: the three collections are independent and identity is untouched by
registration. `AddControllerServiceCapabilities` changes at most `capabilities`,
`AddGroupControllerServiceCapabilities` at most `groupCapabilities` and
`AddVolumeCapabilityAccessModes` at most `vc`: in each case `name`, `version`, `nodeID`,
`instance`, `topology` and the other two collections are unchanged, so registering
controller kinds changes no `ValidateGroupControllerServiceRequest` outcome and not the
`GetVolumeCapabilityAccessModes` result, and likewise for the other two. -/
theorem C13_registration_frame (names names' : EnumNames) (d : CSIDriver) :
    (∀ S : List ControllerServiceCapability_RPC_Type,
      (d.AddControllerServiceCapabilities names S).1
        = { d with capabilities := (d.AddControllerServiceCapabilities names S).1.capabilities } ∧
      (d.AddControllerServiceCapabilities names S).1.name = d.name ∧
      (d.AddControllerServiceCapabilities names S).1.version = d.version ∧
      (d.AddControllerServiceCapabilities names S).1.nodeID = d.nodeID ∧
      (d.AddControllerServiceCapabilities names S).1.instance_ = d.instance_ ∧
      (d.AddControllerServiceCapabilities names S).1.topology = d.topology ∧
      (d.AddControllerServiceCapabilities names S).1.groupCapabilities = d.groupCapabilities ∧
      (d.AddControllerServiceCapabilities names S).1.vc = d.vc ∧
      (∀ k : GroupControllerServiceCapability_RPC_Type,
        (d.AddControllerServiceCapabilities names S).1.ValidateGroupControllerServiceRequest
          names' k = d.ValidateGroupControllerServiceRequest names' k) ∧
      (d.AddControllerServiceCapabilities names S).1.GetVolumeCapabilityAccessModes
        = d.GetVolumeCapabilityAccessModes) ∧
    (∀ S : List GroupControllerServiceCapability_RPC_Type,
      (d.AddGroupControllerServiceCapabilities names S).1
        = { d with groupCapabilities :=
              (d.AddGroupControllerServiceCapabilities names S).1.groupCapabilities } ∧
      (d.AddGroupControllerServiceCapabilities names S).1.name = d.name ∧
      (d.AddGroupControllerServiceCapabilities names S).1.version = d.version ∧
      (d.AddGroupControllerServiceCapabilities names S).1.nodeID = d.nodeID ∧
      (d.AddGroupControllerServiceCapabilities names S).1.instance_ = d.instance_ ∧
      (d.AddGroupControllerServiceCapabilities names S).1.topology = d.topology ∧
      (d.AddGroupControllerServiceCapabilities names S).1.capabilities = d.capabilities ∧
      (d.AddGroupControllerServiceCapabilities names S).1.vc = d.vc ∧
      (∀ k : ControllerServiceCapability_RPC_Type,
        (d.AddGroupControllerServiceCapabilities names S).1.ValidateControllerServiceRequest
          names' k = d.ValidateControllerServiceRequest names' k) ∧
      (d.AddGroupControllerServiceCapabilities names S).1.GetVolumeCapabilityAccessModes
        = d.GetVolumeCapabilityAccessModes) ∧
    (∀ M : List VolumeCapability_AccessMode_Mode,
      (d.AddVolumeCapabilityAccessModes names M).2.1
        = { d with vc := (d.AddVolumeCapabilityAccessModes names M).2.1.vc } ∧
      (d.AddVolumeCapabilityAccessModes names M).2.1.name = d.name ∧
      (d.AddVolumeCapabilityAccessModes names M).2.1.version = d.version ∧
      (d.AddVolumeCapabilityAccessModes names M).2.1.nodeID = d.nodeID ∧
      (d.AddVolumeCapabilityAccessModes names M).2.1.instance_ = d.instance_ ∧
      (d.AddVolumeCapabilityAccessModes names M).2.1.topology = d.topology ∧
      (d.AddVolumeCapabilityAccessModes names M).2.1.capabilities = d.capabilities ∧
      (d.AddVolumeCapabilityAccessModes names M).2.1.groupCapabilities
        = d.groupCapabilities ∧
      (∀ k : ControllerServiceCapability_RPC_Type,
        (d.AddVolumeCapabilityAccessModes names M).2.1.ValidateControllerServiceRequest
          names' k = d.ValidateControllerServiceRequest names' k) ∧
      (∀ k : GroupControllerServiceCapability_RPC_Type,
        (d.AddVolumeCapabilityAccessModes names M).2.1.ValidateGroupControllerServiceRequest
          names' k = d.ValidateGroupControllerServiceRequest names' k)) := by
  refine ⟨fun S => ?_, fun S => ?_, fun M => ?_⟩
  · exact ⟨rfl, rfl, rfl, rfl, rfl, rfl, rfl, rfl, fun _ => rfl, rfl⟩
  · exact ⟨rfl, rfl, rfl, rfl, rfl, rfl, rfl, rfl, fun _ => rfl, rfl⟩
  · exact ⟨rfl, rfl, rfl, rfl, rfl, rfl, rfl, rfl, fun _ => rfl, fun _ => rfl⟩

/-! ## Identity of the driver along its calls -/

/-- A driver that `NewCSIDriver` returns was built from four non-empty strings and holds
them, with no topology and no collection. -/
theorem NewCSIDriver_eq_some (name v nodeID instance_ : String) (d : CSIDriver)
    (h : (NewCSIDriver name v nodeID instance_).1 = some d) :
    name ≠ "" ∧ v ≠ "" ∧ nodeID ≠ "" ∧ instance_ ≠ "" ∧
    d = { name := name, version := v, nodeID := nodeID, instance_ := instance_,
          topology := [], capabilities := [], groupCapabilities := [], vc := [] } := by
  unfold NewCSIDriver at h
  by_cases h1 : name = ""
  · simp [h1] at h
  · by_cases h2 : nodeID = ""
    · simp [h1, h2] at h
    · by_cases h3 : v = ""
      · simp [h1, h2, h3] at h
      · by_cases h4 : instance_ = ""
        · simp [h1, h2, h3, h4] at h
        · simp only [h1, h2, h3, h4, if_false, Option.some.injEq] at h
          exact ⟨h1, h3, h2, h4, h.symm⟩

/-- No call changes the four identity fields. -/
theorem call_identity (names : EnumNames) (d : CSIDriver) (c : Call) :
    (d.call names c).1.name = d.name ∧ (d.call names c).1.version = d.version ∧
    (d.call names c).1.nodeID = d.nodeID ∧ (d.call names c).1.instance_ = d.instance_ := by
  cases c <;> exact ⟨rfl, rfl, rfl, rfl⟩

/-- No sequence of calls changes the four identity fields. -/
theorem calls_identity (names : EnumNames) (cs : List Call) (d : CSIDriver) :
    (d.calls names cs).name = d.name ∧ (d.calls names cs).version = d.version ∧
    (d.calls names cs).nodeID = d.nodeID ∧ (d.calls names cs).instance_ = d.instance_ := by
  induction cs generalizing d with
  | nil => exact ⟨rfl, rfl, rfl, rfl⟩
  | cons c rest ih =>
    obtain ⟨h1, h2, h3, h4⟩ := ih (d.call names c).1
    obtain ⟨g1, g2, g3, g4⟩ := call_identity names d c
    exact ⟨h1.trans g1, h2.trans g2, h3.trans g3, h4.trans g4⟩

/-- C14: reachable-state invariant. For every driver obtained from a successful
`NewCSIDriver(name, v, nodeID, instance)` followed by any finite sequence of
registration, validation and accessor calls, the four identity fields are all non-empty
and still equal to the constructor arguments, and `GetInstanceID()` still returns
`instance`. -/
theorem C14_identity_invariant (names : EnumNames) (name v nodeID instance_ : String)
    (d0 : CSIDriver) (cs : List Call)
    (h : (NewCSIDriver name v nodeID instance_).1 = some d0) :
    (d0.calls names cs).name = name ∧ (d0.calls names cs).version = v ∧
    (d0.calls names cs).nodeID = nodeID ∧ (d0.calls names cs).instance_ = instance_ ∧
    (d0.calls names cs).GetInstanceID = instance_ ∧
    (d0.calls names cs).name ≠ "" ∧ (d0.calls names cs).version ≠ "" ∧
    (d0.calls names cs).nodeID ≠ "" ∧ (d0.calls names cs).instance_ ≠ "" := by
  obtain ⟨n1, n2, n3, n4, hd⟩ := NewCSIDriver_eq_some name v nodeID instance_ d0 h
  obtain ⟨h1, h2, h3, h4⟩ := calls_identity names cs d0
  have e1 : (d0.calls names cs).name = name := by rw [h1, hd]
  have e2 : (d0.calls names cs).version = v := by rw [h2, hd]
  have e3 : (d0.calls names cs).nodeID = nodeID := by rw [h3, hd]
  have e4 : (d0.calls names cs).instance_ = instance_ := by rw [h4, hd]
  refine ⟨e1, e2, e3, e4, e4, ?_, ?_, ?_, ?_⟩
  · rw [e1]; exact n1
  · rw [e2]; exact n2
  · rw [e3]; exact n3
  · rw [e4]; exact n4

/-- Instance of C14: a driver built with instance `"i1"` registers `[CLONE_VOLUME]`,
registers the access mode `SINGLE_NODE_WRITER`, validates `EXPAND_VOLUME` and reads its
access modes; `GetInstanceID()` is still `"i1"`. -/
theorem C14_identity_invariant_witness :
    (CSIDriver.calls ControllerServiceCapability_RPC_Type_name
      { name := "rbd.csi.ceph.com", nodeID := "n1", version := "1.0", instance_ := "i1",
        topology := [], capabilities := [], groupCapabilities := [], vc := [] }
      [Call.AddControllerServiceCapabilities [ControllerServiceCapability_RPC_CLONE_VOLUME],
       Call.AddVolumeCapabilityAccessModes [VolumeCapability_AccessMode_SINGLE_NODE_WRITER],
       Call.ValidateControllerServiceRequest ControllerServiceCapability_RPC_EXPAND_VOLUME,
       Call.GetVolumeCapabilityAccessModes]).GetInstanceID = "i1" :=
  (C14_identity_invariant ControllerServiceCapability_RPC_Type_name
    "rbd.csi.ceph.com" "1.0" "n1" "i1"
    { name := "rbd.csi.ceph.com", nodeID := "n1", version := "1.0", instance_ := "i1",
      topology := [], capabilities := [], groupCapabilities := [], vc := [] }
    [Call.AddControllerServiceCapabilities [ControllerServiceCapability_RPC_CLONE_VOLUME],
     Call.AddVolumeCapabilityAccessModes [VolumeCapability_AccessMode_SINGLE_NODE_WRITER],
     Call.ValidateControllerServiceRequest ControllerServiceCapability_RPC_EXPAND_VOLUME,
     Call.GetVolumeCapabilityAccessModes]
    (by decide)).2.2.2.2.1

/-- C15: validation and the accessors are pure reads. In every driver state and for
every kind `k`, a call of `ValidateControllerServiceRequest(k)`,
`ValidateGroupControllerServiceRequest(k)`, `GetInstanceID()` or
`GetVolumeCapabilityAccessModes()` leaves the driver as it was and writes nothing to the
log, what it returns is the value computed from the state and `k`, and the same call made
again right afterwards returns the same. -/
theorem C15_reads_are_pure (names : EnumNames) (d : CSIDriver) :
    (∀ k : ControllerServiceCapability_RPC_Type,
      (d.call names (Call.ValidateControllerServiceRequest k)).1 = d ∧
      (d.call names (Call.ValidateControllerServiceRequest k)).2.2 = [] ∧
      (d.call names (Call.ValidateControllerServiceRequest k)).2.1
        = Returned.error (d.ValidateControllerServiceRequest names k) ∧
      ((d.call names (Call.ValidateControllerServiceRequest k)).1.call names
          (Call.ValidateControllerServiceRequest k)).2.1
        = (d.call names (Call.ValidateControllerServiceRequest k)).2.1) ∧
    (∀ k : GroupControllerServiceCapability_RPC_Type,
      (d.call names (Call.ValidateGroupControllerServiceRequest k)).1 = d ∧
      (d.call names (Call.ValidateGroupControllerServiceRequest k)).2.2 = [] ∧
      (d.call names (Call.ValidateGroupControllerServiceRequest k)).2.1
        = Returned.error (d.ValidateGroupControllerServiceRequest names k) ∧
      ((d.call names (Call.ValidateGroupControllerServiceRequest k)).1.call names
          (Call.ValidateGroupControllerServiceRequest k)).2.1
        = (d.call names (Call.ValidateGroupControllerServiceRequest k)).2.1) ∧
    ((d.call names Call.GetInstanceID).1 = d ∧
      (d.call names Call.GetInstanceID).2.2 = [] ∧
      (d.call names Call.GetInstanceID).2.1 = Returned.string d.instance_ ∧
      ((d.call names Call.GetInstanceID).1.call names Call.GetInstanceID).2.1
        = (d.call names Call.GetInstanceID).2.1) ∧
    ((d.call names Call.GetVolumeCapabilityAccessModes).1 = d ∧
      (d.call names Call.GetVolumeCapabilityAccessModes).2.2 = [] ∧
      (d.call names Call.GetVolumeCapabilityAccessModes).2.1 = Returned.accessModes d.vc ∧
      ((d.call names Call.GetVolumeCapabilityAccessModes).1.call names
          Call.GetVolumeCapabilityAccessModes).2.1
        = (d.call names Call.GetVolumeCapabilityAccessModes).2.1) :=
  ⟨fun _ => ⟨rfl, rfl, rfl, rfl⟩, fun _ => ⟨rfl, rfl, rfl, rfl⟩, ⟨rfl, rfl, rfl, rfl⟩,
    ⟨rfl, rfl, rfl, rfl⟩⟩

/-! ## What a failed construction reports -/

/-- C17: when `NewCSIDriver` fails it reports exactly one missing field, the first empty
argument in the check order `name`, `nodeID`, `version`, `instance`, with the messages
`"Driver name missing"`, `"NodeID missing"`, `"Version argument missing"` and
`"Instance argument missing"`; on success nothing is reported. -/
theorem C17_NewCSIDriver_reports_first_missing (name v nodeID instance_ : String) :
    (name = "" →
      (NewCSIDriver name v nodeID instance_).2 = [klog.Errorf "Driver name missing"]) ∧
    (name ≠ "" → nodeID = "" →
      (NewCSIDriver name v nodeID instance_).2 = [klog.Errorf "NodeID missing"]) ∧
    (name ≠ "" → nodeID ≠ "" → v = "" →
      (NewCSIDriver name v nodeID instance_).2 = [klog.Errorf "Version argument missing"]) ∧
    (name ≠ "" → nodeID ≠ "" → v ≠ "" → instance_ = "" →
      (NewCSIDriver name v nodeID instance_).2 = [klog.Errorf "Instance argument missing"]) ∧
    ((NewCSIDriver name v nodeID instance_).1 = none ↔
      (NewCSIDriver name v nodeID instance_).2.length = 1) ∧
    ((NewCSIDriver name v nodeID instance_).1 ≠ none ↔
      (NewCSIDriver name v nodeID instance_).2 = []) := by
  unfold NewCSIDriver
  refine ⟨?_, ?_, ?_, ?_, ?_, ?_⟩
  · intro h1
    simp [h1]
  · intro h1 h2
    simp [h1, h2]
  · intro h1 h2 h3
    simp [h1, h2, h3]
  · intro h1 h2 h3 h4
    simp [h1, h2, h3, h4]
  · by_cases h1 : name = "" <;> by_cases h2 : nodeID = "" <;> by_cases h3 : v = "" <;>
      by_cases h4 : instance_ = "" <;> simp [h1, h2, h3, h4]
  · by_cases h1 : name = "" <;> by_cases h2 : nodeID = "" <;> by_cases h3 : v = "" <;>
      by_cases h4 : instance_ = "" <;> simp [h1, h2, h3, h4]

/-- Instance of C17: only the version is empty, and the report names the version. -/
theorem C17_NewCSIDriver_reports_first_missing_witness :
    (NewCSIDriver "rbd.csi.ceph.com" "" "n1" "i1").2
      = [{ severity := klog.Severity.Error, message := "Version argument missing" }] :=
  (C17_NewCSIDriver_reports_first_missing "rbd.csi.ceph.com" "" "n1" "i1").2.2.1
    (by decide) (by decide) rfl

/-! ## Validation depends on the set of registered kinds -/

/-- C18: validation outcomes depend only on the set of registered kinds. For every
driver and all sequences `S`, `S'` with the same members (whatever the multiplicities
and the order), and every kind `k`, `ValidateControllerServiceRequest(k)` after
registering `S` returns the same result as after registering `S'`; the same holds for the
group-controller pair. In particular registering once more a kind that is already in
the sequence, or registering the `UNKNOWN` sentinel itself, changes no validation
outcome. -/
theorem C18_validation_depends_on_set_of_kinds (names names' names'' : EnumNames)
    (d : CSIDriver) :
    (∀ S S' : List ControllerServiceCapability_RPC_Type, (∀ x, x ∈ S ↔ x ∈ S') →
      ∀ k : ControllerServiceCapability_RPC_Type,
        (d.AddControllerServiceCapabilities names S).1.ValidateControllerServiceRequest
            names'' k
          = (d.AddControllerServiceCapabilities names' S').1.ValidateControllerServiceRequest
              names'' k) ∧
    (∀ (S : List ControllerServiceCapability_RPC_Type)
        (c k : ControllerServiceCapability_RPC_Type), c ∈ S →
        (d.AddControllerServiceCapabilities names
            (c :: S)).1.ValidateControllerServiceRequest names'' k
          = (d.AddControllerServiceCapabilities names' S).1.ValidateControllerServiceRequest
              names'' k) ∧
    (∀ (S : List ControllerServiceCapability_RPC_Type)
        (k : ControllerServiceCapability_RPC_Type),
        (d.AddControllerServiceCapabilities names
            (ControllerServiceCapability_RPC_UNKNOWN :: S)).1.ValidateControllerServiceRequest
            names'' k
          = (d.AddControllerServiceCapabilities names' S).1.ValidateControllerServiceRequest
              names'' k) ∧
    (∀ S S' : List GroupControllerServiceCapability_RPC_Type, (∀ x, x ∈ S ↔ x ∈ S') →
      ∀ k : GroupControllerServiceCapability_RPC_Type,
        (d.AddGroupControllerServiceCapabilities names
            S).1.ValidateGroupControllerServiceRequest names'' k
          = (d.AddGroupControllerServiceCapabilities names'
              S').1.ValidateGroupControllerServiceRequest names'' k) ∧
    (∀ (S : List GroupControllerServiceCapability_RPC_Type)
        (c k : GroupControllerServiceCapability_RPC_Type), c ∈ S →
        (d.AddGroupControllerServiceCapabilities names
            (c :: S)).1.ValidateGroupControllerServiceRequest names'' k
          = (d.AddGroupControllerServiceCapabilities names'
              S).1.ValidateGroupControllerServiceRequest names'' k) ∧
    (∀ (S : List GroupControllerServiceCapability_RPC_Type)
        (k : GroupControllerServiceCapability_RPC_Type),
        (d.AddGroupControllerServiceCapabilities names
            (GroupControllerServiceCapability_RPC_UNKNOWN ::
              S)).1.ValidateGroupControllerServiceRequest names'' k
          = (d.AddGroupControllerServiceCapabilities names'
              S).1.ValidateGroupControllerServiceRequest names'' k) := by
  refine ⟨?_, ?_, ?_, ?_, ?_, ?_⟩
  · intro S S' h k
    exact ValidateControllerServiceRequest_of_same_members names names' names'' d S S' h k
  · intro S c k hc
    apply ValidateControllerServiceRequest_of_same_members
    intro x
    constructor
    · intro hx
      rcases List.mem_cons.1 hx with rfl | hx
      · exact hc
      · exact hx
    · exact fun hx => List.mem_cons_of_mem _ hx
  · intro S k
    by_cases hk : k = ControllerServiceCapability_RPC_UNKNOWN
    · subst hk
      simp [CSIDriver.ValidateControllerServiceRequest]
    · apply ValidateControllerServiceRequest_congr
      rw [AddControllerServiceCapabilities_driver, AddControllerServiceCapabilities_driver,
        Bool.eq_iff_iff]
      simp only [ValidateControllerServiceRequest_range_map, List.mem_cons]
      exact ⟨fun h => h.resolve_left hk, Or.inr⟩
  · intro S S' h k
    exact ValidateGroupControllerServiceRequest_of_same_members names names' names'' d S S' h k
  · intro S c k hc
    apply ValidateGroupControllerServiceRequest_of_same_members
    intro x
    constructor
    · intro hx
      rcases List.mem_cons.1 hx with rfl | hx
      · exact hc
      · exact hx
    · exact fun hx => List.mem_cons_of_mem _ hx
  · intro S k
    by_cases hk : k = GroupControllerServiceCapability_RPC_UNKNOWN
    · subst hk
      simp [CSIDriver.ValidateGroupControllerServiceRequest]
    · apply ValidateGroupControllerServiceRequest_congr
      rw [AddGroupControllerServiceCapabilities_driver,
        AddGroupControllerServiceCapabilities_driver, Bool.eq_iff_iff]
      simp only [ValidateGroupControllerServiceRequest_range_map, List.mem_cons]
      exact ⟨fun h => h.resolve_left hk, Or.inr⟩

/-- Instance of C18: registering `EXPAND_VOLUME` twice or once gives the same answer for
`CLONE_VOLUME`. -/
theorem C18_validation_depends_on_set_of_kinds_witness :
    (({ name := "rbd.csi.ceph.com", nodeID := "n1", version := "1.0", instance_ := "i1",
        topology := [], capabilities := [], groupCapabilities := [],
        vc := [] } : CSIDriver).AddControllerServiceCapabilities
        ControllerServiceCapability_RPC_Type_name
        [ControllerServiceCapability_RPC_EXPAND_VOLUME,
         ControllerServiceCapability_RPC_EXPAND_VOLUME]).1.ValidateControllerServiceRequest
        ControllerServiceCapability_RPC_Type_name ControllerServiceCapability_RPC_CLONE_VOLUME
      = (({ name := "rbd.csi.ceph.com", nodeID := "n1", version := "1.0", instance_ := "i1",
            topology := [], capabilities := [], groupCapabilities := [],
            vc := [] } : CSIDriver).AddControllerServiceCapabilities
        ControllerServiceCapability_RPC_Type_name
        [ControllerServiceCapability_RPC_EXPAND_VOLUME]).1.ValidateControllerServiceRequest
        ControllerServiceCapability_RPC_Type_name ControllerServiceCapability_RPC_CLONE_VOLUME :=
  (C18_validation_depends_on_set_of_kinds ControllerServiceCapability_RPC_Type_name
      ControllerServiceCapability_RPC_Type_name ControllerServiceCapability_RPC_Type_name
      { name := "rbd.csi.ceph.com", nodeID := "n1", version := "1.0", instance_ := "i1",
        topology := [], capabilities := [], groupCapabilities := [], vc := [] }).2.1
    [ControllerServiceCapability_RPC_EXPAND_VOLUME]
    ControllerServiceCapability_RPC_EXPAND_VOLUME
    ControllerServiceCapability_RPC_CLONE_VOLUME (by decide)

/-! ## Stored entries that carry no kind -/

/-- On a driver without typed nil the validation of the interface-level driver returns
what `ValidateControllerServiceRequest` of the driver returns. -/
theorem oneof_ValidateControllerServiceRequest_ofCSIDriver (names : EnumNames)
    (d : CSIDriver) (k : ControllerServiceCapability_RPC_Type) :
    (oneof.ofCSIDriver d).ValidateControllerServiceRequest names k
      = oneof.Outcome.returns (d.ValidateControllerServiceRequest names k) := by
  have hget : ∀ e : Option ControllerServiceCapability,
      oneof.ControllerServiceCapability.GetRpc (Option.map oneof.ofControllerServiceCapability e)
        = oneof.Outcome.returns (ControllerServiceCapability.GetRpc e) := by
    intro e
    match e with
    | none => rfl
    | some ⟨none⟩ => rfl
    | some ⟨some x⟩ => rfl
  have hrange : ∀ l : List (Option ControllerServiceCapability),
      oneof.ValidateControllerServiceRequest.range k
          (l.map (Option.map oneof.ofControllerServiceCapability))
        = oneof.Outcome.returns (ValidateControllerServiceRequest.range k l) := by
    intro l
    induction l with
    | nil => rfl
    | cons e rest ih =>
      simp only [List.map_cons, oneof.ValidateControllerServiceRequest.range, hget,
        ValidateControllerServiceRequest.range, ih]
      split <;> rfl
  unfold oneof.CSIDriver.ValidateControllerServiceRequest
    CSIDriver.ValidateControllerServiceRequest
  by_cases h1 : k = ControllerServiceCapability_RPC_UNKNOWN
  · simp [h1]
  · simp only [h1, if_false, oneof.ofCSIDriver, hrange]
    cases ValidateControllerServiceRequest.range k d.capabilities <;> simp

/-- The group-controller counterpart. -/
theorem oneof_ValidateGroupControllerServiceRequest_ofCSIDriver (names : EnumNames)
    (d : CSIDriver) (k : GroupControllerServiceCapability_RPC_Type) :
    (oneof.ofCSIDriver d).ValidateGroupControllerServiceRequest names k
      = oneof.Outcome.returns (d.ValidateGroupControllerServiceRequest names k) := by
  have hget : ∀ e : Option GroupControllerServiceCapability,
      oneof.GroupControllerServiceCapability.GetRpc
          (Option.map oneof.ofGroupControllerServiceCapability e)
        = oneof.Outcome.returns (GroupControllerServiceCapability.GetRpc e) := by
    intro e
    match e with
    | none => rfl
    | some ⟨none⟩ => rfl
    | some ⟨some x⟩ => rfl
  have hrange : ∀ l : List (Option GroupControllerServiceCapability),
      oneof.ValidateGroupControllerServiceRequest.range k
          (l.map (Option.map oneof.ofGroupControllerServiceCapability))
        = oneof.Outcome.returns (ValidateGroupControllerServiceRequest.range k l) := by
    intro l
    induction l with
    | nil => rfl
    | cons e rest ih =>
      simp only [List.map_cons, oneof.ValidateGroupControllerServiceRequest.range, hget,
        ValidateGroupControllerServiceRequest.range, ih]
      split <;> rfl
  unfold oneof.CSIDriver.ValidateGroupControllerServiceRequest
    CSIDriver.ValidateGroupControllerServiceRequest
  by_cases h1 : k = GroupControllerServiceCapability_RPC_UNKNOWN
  · simp [h1]
  · simp only [h1, if_false, oneof.ofCSIDriver, hrange]
    cases ValidateGroupControllerServiceRequest.range k d.groupCapabilities <;> simp

/-- On a controller collection without typed nil the scan returns, and for a kind other
than `UNKNOWN` it returns whether the well-formed entry of that kind is stored. -/
theorem oneof_range_of_no_typed_nil (k : ControllerServiceCapability_RPC_Type)
    (hk : k ≠ ControllerServiceCapability_RPC_UNKNOWN)
    (l : List (Option oneof.ControllerServiceCapability))
    (h : ∀ e ∈ l, e ≠ some { Type_ := oneof.isControllerServiceCapability_Type.Rpc none }) :
    oneof.ValidateControllerServiceRequest.range k l
      = oneof.Outcome.returns (decide ((some { Type_ :=
          oneof.isControllerServiceCapability_Type.Rpc (some { Rpc := some { Type_ := k } }) }
          : Option oneof.ControllerServiceCapability) ∈ l)) := by
  induction l with
  | nil => simp [oneof.ValidateControllerServiceRequest.range]
  | cons e rest ih =>
    have ih' := ih (fun e he => h e (List.mem_cons_of_mem _ he))
    have he := h e (List.mem_cons_self _ _)
    match e, he with
    | none, _ =>
      simp [oneof.ValidateControllerServiceRequest.range,
        oneof.ControllerServiceCapability.GetRpc, ControllerServiceCapability_RPC.GetType,
        hk, ih']
    | some ⟨oneof.isControllerServiceCapability_Type.nil⟩, _ =>
      simp [oneof.ValidateControllerServiceRequest.range,
        oneof.ControllerServiceCapability.GetRpc, ControllerServiceCapability_RPC.GetType,
        hk, ih']
    | some ⟨oneof.isControllerServiceCapability_Type.Rpc none⟩, he => exact absurd rfl he
    | some ⟨oneof.isControllerServiceCapability_Type.Rpc (some ⟨none⟩)⟩, _ =>
      simp [oneof.ValidateControllerServiceRequest.range,
        oneof.ControllerServiceCapability.GetRpc, ControllerServiceCapability_RPC.GetType,
        hk, ih']
    | some ⟨oneof.isControllerServiceCapability_Type.Rpc (some ⟨some ⟨t⟩⟩)⟩, _ =>
      by_cases hkt : k = t
      · subst hkt
        simp [oneof.ValidateControllerServiceRequest.range,
          oneof.ControllerServiceCapability.GetRpc, ControllerServiceCapability_RPC.GetType]
      · have hne : ¬ t = k := fun h => hkt h.symm
        simp [oneof.ValidateControllerServiceRequest.range,
          oneof.ControllerServiceCapability.GetRpc, ControllerServiceCapability_RPC.GetType,
          hkt, hne, ih']

/-- On a group-controller collection without typed nil the scan returns, and for a kind other
than `UNKNOWN` it returns whether the well-formed entry of that kind is stored. -/
theorem oneof_group_range_of_no_typed_nil (k : GroupControllerServiceCapability_RPC_Type)
    (hk : k ≠ GroupControllerServiceCapability_RPC_UNKNOWN)
    (l : List (Option oneof.GroupControllerServiceCapability))
    (h : ∀ e ∈ l, e ≠ some { Type_ := oneof.isGroupControllerServiceCapability_Type.Rpc none }) :
    oneof.ValidateGroupControllerServiceRequest.range k l
      = oneof.Outcome.returns (decide ((some { Type_ :=
          oneof.isGroupControllerServiceCapability_Type.Rpc (some { Rpc := some { Type_ := k } }) }
          : Option oneof.GroupControllerServiceCapability) ∈ l)) := by
  induction l with
  | nil => simp [oneof.ValidateGroupControllerServiceRequest.range]
  | cons e rest ih =>
    have ih' := ih (fun e he => h e (List.mem_cons_of_mem _ he))
    have he := h e (List.mem_cons_self _ _)
    match e, he with
    | none, _ =>
      simp [oneof.ValidateGroupControllerServiceRequest.range,
        oneof.GroupControllerServiceCapability.GetRpc, GroupControllerServiceCapability_RPC.GetType,
        hk, ih']
    | some ⟨oneof.isGroupControllerServiceCapability_Type.nil⟩, _ =>
      simp [oneof.ValidateGroupControllerServiceRequest.range,
        oneof.GroupControllerServiceCapability.GetRpc, GroupControllerServiceCapability_RPC.GetType,
        hk, ih']
    | some ⟨oneof.isGroupControllerServiceCapability_Type.Rpc none⟩, he => exact absurd rfl he
    | some ⟨oneof.isGroupControllerServiceCapability_Type.Rpc (some ⟨none⟩)⟩, _ =>
      simp [oneof.ValidateGroupControllerServiceRequest.range,
        oneof.GroupControllerServiceCapability.GetRpc, GroupControllerServiceCapability_RPC.GetType,
        hk, ih']
    | some ⟨oneof.isGroupControllerServiceCapability_Type.Rpc (some ⟨some ⟨t⟩⟩)⟩, _ =>
      by_cases hkt : k = t
      · subst hkt
        simp [oneof.ValidateGroupControllerServiceRequest.range,
          oneof.GroupControllerServiceCapability.GetRpc, GroupControllerServiceCapability_RPC.GetType]
      · have hne : ¬ t = k := fun h => hkt h.symm
        simp [oneof.ValidateGroupControllerServiceRequest.range,
          oneof.GroupControllerServiceCapability.GetRpc, GroupControllerServiceCapability_RPC.GetType,
          hkt, hne, ih']

/-- C19, amended: validation is total and conservative on malformed stored entries as
long as no stored entry holds a typed-nil wrapper in its `Type` field. A nil entry, an
entry whose `Type` is not set and an entry whose wrapper has a nil RPC all read as the
`UNKNOWN` kind through the getters. In every driver state whose controller collection
holds no entry with a typed-nil wrapper, `ValidateControllerServiceRequest(k)` returns,
with no error or with the `InvalidArgument` error, and for every `k` other than `UNKNOWN`
it returns no error exactly when the well-formed entry carrying `k` is stored; the same
holds for the group-controller collection and `ValidateGroupControllerServiceRequest`. -/
theorem C19_validation_on_malformed_entries (names : EnumNames) (g : oneof.CSIDriver) :
    (oneof.ControllerServiceCapability.GetRpc none = oneof.Outcome.returns none ∧
      oneof.ControllerServiceCapability.GetRpc
          (some { Type_ := oneof.isControllerServiceCapability_Type.nil })
        = oneof.Outcome.returns none ∧
      oneof.ControllerServiceCapability.GetRpc
          (some { Type_ := oneof.isControllerServiceCapability_Type.Rpc (some { Rpc := none }) })
        = oneof.Outcome.returns none ∧
      ControllerServiceCapability_RPC.GetType none = ControllerServiceCapability_RPC_UNKNOWN) ∧
    (oneof.GroupControllerServiceCapability.GetRpc none = oneof.Outcome.returns none ∧
      oneof.GroupControllerServiceCapability.GetRpc
          (some { Type_ := oneof.isGroupControllerServiceCapability_Type.nil })
        = oneof.Outcome.returns none ∧
      oneof.GroupControllerServiceCapability.GetRpc
          (some { Type_ :=
            oneof.isGroupControllerServiceCapability_Type.Rpc (some { Rpc := none }) })
        = oneof.Outcome.returns none ∧
      GroupControllerServiceCapability_RPC.GetType none
        = GroupControllerServiceCapability_RPC_UNKNOWN) ∧
    ((∀ e ∈ g.capabilities,
        e ≠ some { Type_ := oneof.isControllerServiceCapability_Type.Rpc none }) →
      (∀ k : ControllerServiceCapability_RPC_Type,
        g.ValidateControllerServiceRequest names k = oneof.Outcome.returns none ∨
        g.ValidateControllerServiceRequest names k = oneof.Outcome.returns
          (some { code := codes.Code.InvalidArgument, message := k.String names })) ∧
      (∀ k : ControllerServiceCapability_RPC_Type,
        k ≠ ControllerServiceCapability_RPC_UNKNOWN →
        (g.ValidateControllerServiceRequest names k = oneof.Outcome.returns none ↔
          (some ⟨oneof.isControllerServiceCapability_Type.Rpc (some ⟨some ⟨k⟩⟩)⟩
            : Option oneof.ControllerServiceCapability) ∈ g.capabilities))) ∧
    ((∀ e ∈ g.groupCapabilities,
        e ≠ some { Type_ := oneof.isGroupControllerServiceCapability_Type.Rpc none }) →
      (∀ k : GroupControllerServiceCapability_RPC_Type,
        g.ValidateGroupControllerServiceRequest names k = oneof.Outcome.returns none ∨
        g.ValidateGroupControllerServiceRequest names k = oneof.Outcome.returns
          (some { code := codes.Code.InvalidArgument, message := k.String names })) ∧
      (∀ k : GroupControllerServiceCapability_RPC_Type,
        k ≠ GroupControllerServiceCapability_RPC_UNKNOWN →
        (g.ValidateGroupControllerServiceRequest names k = oneof.Outcome.returns none ↔
          (some ⟨oneof.isGroupControllerServiceCapability_Type.Rpc (some ⟨some ⟨k⟩⟩)⟩
            : Option oneof.GroupControllerServiceCapability) ∈ g.groupCapabilities))) := by
  refine ⟨⟨rfl, rfl, rfl, rfl⟩, ⟨rfl, rfl, rfl, rfl⟩, fun h => ⟨fun k => ?_, fun k hk => ?_⟩,
    fun h => ⟨fun k => ?_, fun k hk => ?_⟩⟩
  · unfold oneof.CSIDriver.ValidateControllerServiceRequest
    by_cases hk : k = ControllerServiceCapability_RPC_UNKNOWN
    · simp [hk]
    · rw [if_neg hk, oneof_range_of_no_typed_nil k hk g.capabilities h]
      cases decide ((some ⟨oneof.isControllerServiceCapability_Type.Rpc (some ⟨some ⟨k⟩⟩)⟩
          : Option oneof.ControllerServiceCapability) ∈ g.capabilities) <;>
        simp [status.Error]
  · unfold oneof.CSIDriver.ValidateControllerServiceRequest
    rw [if_neg hk, oneof_range_of_no_typed_nil k hk g.capabilities h]
    by_cases hm : (some ⟨oneof.isControllerServiceCapability_Type.Rpc (some ⟨some ⟨k⟩⟩)⟩
        : Option oneof.ControllerServiceCapability) ∈ g.capabilities
    · simp [hm]
    · simp [hm, status.Error]
  · unfold oneof.CSIDriver.ValidateGroupControllerServiceRequest
    by_cases hk : k = GroupControllerServiceCapability_RPC_UNKNOWN
    · simp [hk]
    · rw [if_neg hk, oneof_group_range_of_no_typed_nil k hk g.groupCapabilities h]
      cases decide ((some ⟨oneof.isGroupControllerServiceCapability_Type.Rpc (some ⟨some ⟨k⟩⟩)⟩
          : Option oneof.GroupControllerServiceCapability) ∈ g.groupCapabilities) <;>
        simp [status.Error]
  · unfold oneof.CSIDriver.ValidateGroupControllerServiceRequest
    rw [if_neg hk, oneof_group_range_of_no_typed_nil k hk g.groupCapabilities h]
    by_cases hm : (some ⟨oneof.isGroupControllerServiceCapability_Type.Rpc (some ⟨some ⟨k⟩⟩)⟩
        : Option oneof.GroupControllerServiceCapability) ∈ g.groupCapabilities
    · simp [hm]
    · simp [hm, status.Error]

/-- Instance of C19, amended: the collection holds a nil entry, an entry with no `Type`,
an entry whose wrapper has a nil RPC and the entry of `EXPAND_VOLUME`; `EXPAND_VOLUME`
is validated. -/
theorem C19_validation_on_malformed_entries_witness :
    ({ name := "rbd.csi.ceph.com", nodeID := "n1", version := "1.0", instance_ := "i1",
       topology := [],
       capabilities := [none, some ⟨oneof.isControllerServiceCapability_Type.nil⟩,
         some ⟨oneof.isControllerServiceCapability_Type.Rpc (some ⟨none⟩)⟩,
         some ⟨oneof.isControllerServiceCapability_Type.Rpc
           (some ⟨some ⟨ControllerServiceCapability_RPC_EXPAND_VOLUME⟩⟩)⟩],
       groupCapabilities := [], vc := [] } : oneof.CSIDriver).ValidateControllerServiceRequest
        ControllerServiceCapability_RPC_Type_name ControllerServiceCapability_RPC_EXPAND_VOLUME
      = oneof.Outcome.returns none :=
  ((((C19_validation_on_malformed_entries ControllerServiceCapability_RPC_Type_name
      { name := "rbd.csi.ceph.com", nodeID := "n1", version := "1.0", instance_ := "i1",
        topology := [],
        capabilities := [none, some ⟨oneof.isControllerServiceCapability_Type.nil⟩,
          some ⟨oneof.isControllerServiceCapability_Type.Rpc (some ⟨none⟩)⟩,
          some ⟨oneof.isControllerServiceCapability_Type.Rpc
            (some ⟨some ⟨ControllerServiceCapability_RPC_EXPAND_VOLUME⟩⟩)⟩],
        groupCapabilities := [], vc := [] }).2.2.1 (by decide)).2
    ControllerServiceCapability_RPC_EXPAND_VOLUME (by decide)).2 (by decide))

/-- C19 as stated fails on an entry whose `Type` holds a typed-nil wrapper: the
collection holds a nil entry, such an entry and the well-formed entry of
`EXPAND_VOLUME`; validating `EXPAND_VOLUME`, which is not the sentinel and is carried by
a stored well-formed entry, panics in `GetRpc` at the second entry and returns nothing. -/
theorem C19_typed_nil_entry_panics :
    ControllerServiceCapability_RPC_EXPAND_VOLUME ≠ ControllerServiceCapability_RPC_UNKNOWN ∧
    (some ⟨oneof.isControllerServiceCapability_Type.Rpc
        (some ⟨some ⟨ControllerServiceCapability_RPC_EXPAND_VOLUME⟩⟩)⟩
      : Option oneof.ControllerServiceCapability) ∈
      ({ name := "rbd.csi.ceph.com", nodeID := "n1", version := "1.0", instance_ := "i1",
         topology := [],
         capabilities := [none, some ⟨oneof.isControllerServiceCapability_Type.Rpc none⟩,
           some ⟨oneof.isControllerServiceCapability_Type.Rpc
             (some ⟨some ⟨ControllerServiceCapability_RPC_EXPAND_VOLUME⟩⟩)⟩],
         groupCapabilities := [], vc := [] } : oneof.CSIDriver).capabilities ∧
    ({ name := "rbd.csi.ceph.com", nodeID := "n1", version := "1.0", instance_ := "i1",
       topology := [],
       capabilities := [none, some ⟨oneof.isControllerServiceCapability_Type.Rpc none⟩,
         some ⟨oneof.isControllerServiceCapability_Type.Rpc
           (some ⟨some ⟨ControllerServiceCapability_RPC_EXPAND_VOLUME⟩⟩)⟩],
       groupCapabilities := [], vc := [] } : oneof.CSIDriver).ValidateControllerServiceRequest
        ControllerServiceCapability_RPC_Type_name ControllerServiceCapability_RPC_EXPAND_VOLUME
      = oneof.Outcome.panic ∧
    ({ name := "rbd.csi.ceph.com", nodeID := "n1", version := "1.0", instance_ := "i1",
       topology := [],
       capabilities := [none, some ⟨oneof.isControllerServiceCapability_Type.Rpc none⟩,
         some ⟨oneof.isControllerServiceCapability_Type.Rpc
           (some ⟨some ⟨ControllerServiceCapability_RPC_EXPAND_VOLUME⟩⟩)⟩],
       groupCapabilities := [], vc := [] } : oneof.CSIDriver).ValidateControllerServiceRequest
        ControllerServiceCapability_RPC_Type_name ControllerServiceCapability_RPC_EXPAND_VOLUME
      ≠ oneof.Outcome.returns none := by
  refine ⟨?_, ?_, ?_, ?_⟩ <;> decide

end csicommon
